import Mathlib

/-!
# A verification development for the dark-pattern detection core

This file is a shallow embedding, in Lean 4, of the detection core of the
repository: the rule database (`darkPatternRules.js`), the heuristic scorer
(`aiDetector.js`) and the detection engine (`darkPatternDetector.js`), together
with theorems about the embedded functions.

Conventions of the embedding:

* JavaScript numbers are modelled by `ℚ`.  Because `Rat.add`, `Rat.mul`,
  `Rat.sub` and `Rat.inv` are `@[irreducible]` in this toolchain, the embedded
  code performs arithmetic through the wrappers `radd`, `rsub`, `rmul`, `rdiv`
  below, which are proved equal to `+`, `-`, `*`, `/` (`radd_eq`, `rsub_eq`,
  `rmul_eq`, `rdiv_eq`); theorem statements use the ordinary operations.
  Decimal literals of the source are written `mkRat n d` (e.g. `mkRat 9 10`
  for `0.9`) so that concrete runs of the embedded code reduce in the kernel.
* JavaScript regular expressions are modelled by the `Re` type and a
  Brzozowski-derivative matcher; `RegExp.test` (an unanchored search) is
  `reTest`.  Case-insensitive tests (`/i`) lower-case the subject string,
  which is equivalent for the ASCII patterns of the source.
* A DOM element is modelled by the `Element` record holding exactly the data
  the detection code reads from the host document (text, tag, class, style
  values, attribute flags, results of the fixed descendant queries, and the
  class names of its ancestor chain).
* A structural rule predicate (`checkElement`) returns `Except String Bool`;
  a thrown JavaScript exception is modelled by `Except.error`.
-/

namespace DarkPattern

/-! ## Kernel-reducible rational arithmetic -/

/-- Addition on `ℚ` by the usual cross-multiplication formula (equals `+`). -/
def radd (a b : ℚ) : ℚ := mkRat (a.num * b.den + b.num * a.den) (a.den * b.den)

/-- Negation on `ℚ` (equals `-·`). -/
def rneg (a : ℚ) : ℚ := mkRat (-a.num) a.den

/-- Subtraction on `ℚ` (equals `-`). -/
def rsub (a b : ℚ) : ℚ := radd a (rneg b)

/-- Multiplication on `ℚ` (equals `*`). -/
def rmul (a b : ℚ) : ℚ := mkRat (a.num * b.num) (a.den * b.den)

/-- Division on `ℚ`, with the `x / 0 = 0` convention (equals `/`). -/
def rdiv (a b : ℚ) : ℚ :=
  if 0 ≤ b.num then mkRat (a.num * b.den) (a.den * b.num.natAbs)
  else mkRat (-(a.num * b.den)) (a.den * b.num.natAbs)

/-! ## String helpers (kernel-reducible)

`String.toLower` and `String.trim` from core do not reduce well in the
kernel, so the embedding works on the character list of a string. -/

/-- The `text.toLowerCase()` of JavaScript (ASCII case folding). -/
def lowerStr (s : String) : String := ⟨s.data.map Char.toLower⟩

/-- The `text.trim()` of JavaScript: strip whitespace from both ends. -/
def trimStr (s : String) : String :=
  ⟨((s.data.dropWhile Char.isWhitespace).reverse.dropWhile Char.isWhitespace).reverse⟩

/-- The `haystack.includes(needle)` of JavaScript. -/
def strContains (hay needle : String) : Bool :=
  hay.data.tails.any (fun t => needle.data.isPrefixOf t)

/-- The apostrophe character, written via its code so the source regexes
containing it can be embedded. -/
def apos : Char := Char.ofNat 39

/-! ## A small regular-expression engine

Enough of the JavaScript regex language for the patterns appearing in the
source: character classes, concatenation, alternation, option and star.
Matching is by Brzozowski derivatives; `reTest` is the unanchored
`RegExp.test`. -/

inductive Re where
  | fail : Re
  | eps : Re
  | cls : (Char → Bool) → Re
  | seq : Re → Re → Re
  | alt : Re → Re → Re
  | star : Re → Re

/-- Does the language of `r` contain the empty word? -/
def Re.nullable : Re → Bool
  | .fail => false
  | .eps => true
  | .cls _ => false
  | .seq r1 r2 => r1.nullable && r2.nullable
  | .alt r1 r2 => r1.nullable || r2.nullable
  | .star _ => true

/-- Smart sequencing (keeps derivative terms small). -/
def Re.seqS : Re → Re → Re
  | .fail, _ => .fail
  | _, .fail => .fail
  | .eps, r => r
  | r, .eps => r
  | r1, r2 => .seq r1 r2

/-- Smart alternation (keeps derivative terms small). -/
def Re.altS : Re → Re → Re
  | .fail, r => r
  | r, .fail => r
  | r1, r2 => .alt r1 r2

/-- Brzozowski derivative of `r` by the character `c`. -/
def Re.deriv : Re → Char → Re
  | .fail, _ => .fail
  | .eps, _ => .fail
  | .cls p, c => if p c then .eps else .fail
  | .seq r1 r2, c =>
      if r1.nullable then Re.altS (Re.seqS (r1.deriv c) r2) (r2.deriv c)
      else Re.seqS (r1.deriv c) r2
  | .alt r1 r2, c => Re.altS (r1.deriv c) (r2.deriv c)
  | .star r, c => Re.seqS (r.deriv c) (.star r)

/-- Does some prefix of `cs` match `r`? -/
def Re.prefixMatch : Re → List Char → Bool
  | r, [] => r.nullable
  | r, c :: cs => r.nullable || (r.deriv c).prefixMatch cs

/-- The `r.test(s)` of JavaScript: does any substring of `s` match `r`? -/
def reTest (r : Re) (s : String) : Bool :=
  s.data.tails.any (fun t => r.prefixMatch t)

/-- Case-insensitive test (a `/i` regex whose literals are lower case). -/
def reTestI (r : Re) (s : String) : Bool := reTest r (lowerStr s)

/-- A single literal character. -/
def chr (c : Char) : Re := .cls (fun d => d == c)

/-- A literal string. -/
def lit (s : String) : Re := (s.data.map chr).foldr .seq .eps

/-- Concatenation of a list of regexes. -/
def cat (rs : List Re) : Re := rs.foldr .seq .eps

/-- Alternation of a list of regexes. -/
def altL (rs : List Re) : Re := rs.foldr .alt .fail

/-- The `r+`. -/
def plusR (r : Re) : Re := .seq r (.star r)

/-- The `r?`. -/
def optR (r : Re) : Re := .alt r .eps

/-- The `\s` (whitespace class). -/
def wsC : Re := .cls Char.isWhitespace

/-- The `\s+`. -/
def wsP : Re := plusR wsC

/-- The `\s*`. -/
def wsS : Re := .star wsC

/-- The `\d` (digit class). -/
def digC : Re := .cls Char.isDigit

/-- The `\d+`. -/
def digP : Re := plusR digC

/-- The `.` (any character except a line terminator). -/
def dotC : Re := .cls (fun c => !(c == '\n'))

/-- The `.*`. -/
def dotS : Re := .star dotC

/-- An optional apostrophe, as appears in several source patterns. -/
def aposO : Re := optR (chr apos)

/-! ## The element model

`Element` holds exactly the data the detection code reads from the host
document: text, tag, class and type attributes, checkbox state, the label
text, the href, computed-style values, the boolean results of the fixed
descendant queries the code performs, and the class names of the ancestor
chain (for the modal/popup walks).  `zIndexVal` models
`parseInt(styles.zIndex) || 0`; `colorRGB`/`backgroundRGB` are the first
three integers of the computed color string (`none` when the string has
none, in which case the code falls back to brightness 128);
`fontSizePx` is the numeric value of the computed `font-size` (so the
source check `styles.fontSize === "10px"` becomes `fontSizePx = 10`). -/
structure Element where
  textContent : String
  tagName : String
  className : String
  inputType : String
  checked : Bool
  hasCheckedAttr : Bool
  labelText : String
  href : Option String
  hasOnclickAttr : Bool
  hasDataOnload : Bool
  opacity : ℚ
  fontSizePx : ℚ
  position : String
  zIndexVal : ℤ
  colorRGB : Option (ℚ × ℚ × ℚ)
  backgroundRGB : Option (ℚ × ℚ × ℚ)
  inlineCursorPointer : Bool
  inlinePointerEventsNone : Bool
  hasTimerDescendant : Bool
  hasFeeDescendant : Bool
  hasCheckboxDescendant : Bool
  hasFormDescendant : Bool
  hasInputDescendant : Bool
  hasCheckedCheckboxRadioDescendant : Bool
  ancestorClasses : List String
deriving DecidableEq

/-! ## The heuristic ("AI") detector — `aiDetector.js`

Feature records keep the fields `makePredictions` reads; fields the scorer
never consults (`length`, `hasManipulativeLanguage`, `readabilityScore`,
`hasPercentageClaims`, `hasHiddenInputs`, `hasRedirection`, `hasExitIntent`,
`proximityToImportantAction`, `pageContext`, and the purely descriptive
visual fields) are omitted from the embedding. -/

/-- Text features extracted from the normalized (lower-cased, trimmed)
element text. -/
structure TextFeatures where
  hasNegativeLanguage : Bool
  hasUrgentLanguage : Bool
  sentimentScore : ℚ
  hasNumberClaims : Bool
deriving DecidableEq

/-- Visual features (fields used by the scorer). -/
structure VisualFeatures where
  opacity : ℚ
  isOverlay : Bool
  contrastRatioVal : ℚ
deriving DecidableEq

/-- Behavioral features (fields used by the scorer). -/
structure BehavioralFeatures where
  isInteractive : Bool
  isForm : Bool
  hasPreselection : Bool
  hasTimeConstraint : Bool
  blocksUserAction : Bool
deriving DecidableEq

/-- Contextual features (fields used by the scorer). -/
structure ContextualFeatures where
  isInModal : Bool
  isInPopup : Bool
  appearsOnLoad : Bool
deriving DecidableEq

/-- A `FeatureSet`: the four feature groups. -/
structure Features where
  text : TextFeatures
  visual : VisualFeatures
  behavioral : BehavioralFeatures
  contextual : ContextualFeatures
deriving DecidableEq

/-- The patterns of `hasNegativeLanguage`. -/
def negativePatterns : List Re :=
  [ cat [lit "no", wsP, lit "thanks"]
  , cat [lit "don", aposO, lit "t", wsP, lit "want"]
  , cat [lit "i", wsP, lit "hate"]
  , cat [lit "not", wsP, lit "interested"]
  , lit "decline"
  , lit "refuse" ]

/-- The `hasNegativeLanguage(text)`. -/
def hasNegativeLanguage (text : String) : Bool :=
  negativePatterns.any (fun p => reTest p text)

/-- The patterns of `hasUrgentLanguage`. -/
def urgentPatterns : List Re :=
  [ lit "now"
  , lit "today"
  , lit "hurry"
  , lit "quick"
  , lit "limited"
  , cat [lit "expire", optR (chr 's')]
  , lit "ending"
  , cat [lit "last", wsP, lit "chance"]
  , cat [lit "act", wsP, lit "fast"] ]

/-- The `hasUrgentLanguage(text)`. -/
def hasUrgentLanguage (text : String) : Bool :=
  urgentPatterns.any (fun p => reTest p text)

/-- The manipulative patterns of `calculateSentiment`. -/
def sentimentPatterns : List Re :=
  [ cat [lit "don", aposO, lit "t miss"]
  , lit "lose out"
  , lit "regret"
  , lit "mistake"
  , lit "foolish"
  , lit "stupid"
  , lit "hate" ]

/-- The `calculateSentiment(text)`: each matching pattern subtracts `0.2`;
the result is clamped to `[-1, 1]`. -/
def calculateSentiment (text : String) : ℚ :=
  let score := sentimentPatterns.foldl
    (fun s p => if reTest p text then rsub s (mkRat 2 10) else s) 0
  max (mkRat (-1) 1) (min 1 score)

/-- The `extractTextFeatures(element)` (on the fields the scorer uses). -/
def extractTextFeatures (e : Element) : TextFeatures :=
  let normalizedText := trimStr (lowerStr e.textContent)
  { hasNegativeLanguage := hasNegativeLanguage normalizedText
    hasUrgentLanguage := hasUrgentLanguage normalizedText
    sentimentScore := calculateSentiment normalizedText
    hasNumberClaims := reTest digP normalizedText }

/-- The `getBrightness(color)`: weighted RGB, defaulting to 128 when the color
string yields no rgb components. -/
def getBrightness : Option (ℚ × ℚ × ℚ) → ℚ
  | none => 128
  | some (r, g, b) =>
      rdiv (radd (radd (rmul r 299) (rmul g 587)) (rmul b 114)) 1000

/-- The `calculateContrastRatio(styles)`: `(lighter + 0.05) / (darker + 0.05)`. -/
def calculateContrastRatio (bg fg : Option (ℚ × ℚ × ℚ)) : ℚ :=
  let bgBrightness := getBrightness bg
  let fgBrightness := getBrightness fg
  let lighter := max bgBrightness fgBrightness
  let darker := min bgBrightness fgBrightness
  rdiv (radd lighter (mkRat 5 100)) (radd darker (mkRat 5 100))

/-- The `isOverlay(element, styles)`. -/
def isOverlay (e : Element) : Bool :=
  (e.position == "fixed" || e.position == "absolute") && e.zIndexVal > 1000

/-- The `extractVisualFeatures(element)` (on the fields the scorer uses). -/
def extractVisualFeatures (e : Element) : VisualFeatures :=
  { opacity := e.opacity
    isOverlay := isOverlay e
    contrastRatioVal := calculateContrastRatio e.backgroundRGB e.colorRGB }

/-- The `isInteractive(element)`. -/
def isInteractive (e : Element) : Bool :=
  ["BUTTON", "A", "INPUT", "SELECT", "TEXTAREA"].contains e.tagName
    || e.hasOnclickAttr || e.inlineCursorPointer

/-- The `isForm(element)`. -/
def isForm (e : Element) : Bool :=
  e.tagName == "FORM" || e.hasFormDescendant || e.hasInputDescendant

/-- The `hasTimeConstraint(element)`: a `h:mm`-style text or a timer/countdown
descendant. -/
def hasTimeConstraint (e : Element) : Bool :=
  reTest (cat [digP, chr ':', digP]) (lowerStr e.textContent)
    || e.hasTimerDescendant

/-- The `blocksUserAction(element)`. -/
def blocksUserAction (e : Element) : Bool :=
  (e.position == "fixed" || e.position == "absolute")
    && !e.inlinePointerEventsNone && e.zIndexVal > 100

/-- The `isInModal(element)`: the ancestor-class walk for "modal"/"dialog". -/
def isInModal (e : Element) : Bool :=
  e.ancestorClasses.any (fun c =>
    strContains (lowerStr c) "modal" || strContains (lowerStr c) "dialog")

/-- The `isInPopup(element)`: the ancestor-class walk for "popup"/"overlay". -/
def isInPopup (e : Element) : Bool :=
  e.ancestorClasses.any (fun c =>
    strContains (lowerStr c) "popup" || strContains (lowerStr c) "overlay")

/-- The `extractBehavioralFeatures(element)` (on the fields the scorer uses). -/
def extractBehavioralFeatures (e : Element) : BehavioralFeatures :=
  { isInteractive := isInteractive e
    isForm := isForm e
    hasPreselection := e.hasCheckedCheckboxRadioDescendant
    hasTimeConstraint := hasTimeConstraint e
    blocksUserAction := blocksUserAction e }

/-- The `extractContextualFeatures(element)` (on the fields the scorer uses). -/
def extractContextualFeatures (e : Element) : ContextualFeatures :=
  { isInModal := isInModal e
    isInPopup := isInPopup e
    appearsOnLoad := e.hasDataOnload }

/-- The `extractFeatures(element)`. -/
def extractFeatures (e : Element) : Features :=
  { text := extractTextFeatures e
    visual := extractVisualFeatures e
    behavioral := extractBehavioralFeatures e
    contextual := extractContextualFeatures e }

/-- Condition 1 of `makePredictions`: negative language and sentiment below
`-0.3`. -/
def cond1 (f : Features) : Bool :=
  f.text.hasNegativeLanguage && decide (f.text.sentimentScore < mkRat (-3) 10)

/-- Condition 2: urgent language with a numeric claim. -/
def cond2 (f : Features) : Bool :=
  f.text.hasUrgentLanguage && f.text.hasNumberClaims

/-- Condition 3: low opacity on an interactive element. -/
def cond3 (f : Features) : Bool :=
  decide (f.visual.opacity < mkRat 5 10) && f.behavioral.isInteractive

/-- Condition 4: low contrast on an interactive element. -/
def cond4 (f : Features) : Bool :=
  decide (f.visual.contrastRatioVal < 3) && f.behavioral.isInteractive

/-- Condition 5: an overlay inside a modal. -/
def cond5 (f : Features) : Bool :=
  f.visual.isOverlay && f.contextual.isInModal

/-- Condition 6: a form with preselected options. -/
def cond6 (f : Features) : Bool :=
  f.behavioral.hasPreselection && f.behavioral.isForm

/-- Condition 7: the element blocks the user action. -/
def cond7 (f : Features) : Bool :=
  f.behavioral.blocksUserAction

/-- Condition 8: a time constraint with urgent language. -/
def cond8 (f : Features) : Bool :=
  f.behavioral.hasTimeConstraint && f.text.hasUrgentLanguage

/-- Condition 9: a popup appearing on load. -/
def cond9 (f : Features) : Bool :=
  f.contextual.isInPopup && f.contextual.appearsOnLoad

/-- The scores pushed by the triggered conditions of `makePredictions`,
in evaluation order. -/
def triggeredScores (f : Features) : List ℚ :=
  (if cond1 f then [mkRat 8 10] else [])
    ++ (if cond2 f then [mkRat 7 10] else [])
    ++ (if cond3 f then [mkRat 85 100] else [])
    ++ (if cond4 f then [mkRat 75 100] else [])
    ++ (if cond5 f then [mkRat 65 100] else [])
    ++ (if cond6 f then [mkRat 8 10] else [])
    ++ (if cond7 f then [mkRat 9 10] else [])
    ++ (if cond8 f then [mkRat 85 100] else [])
    ++ (if cond9 f then [mkRat 6 10] else [])

/-- The pattern names pushed by the triggered conditions, in order. -/
def triggeredPatternNames (f : Features) : List String :=
  (if cond1 f then ["manipulative-language"] else [])
    ++ (if cond2 f then ["false-urgency"] else [])
    ++ (if cond3 f then ["visual-obstruction"] else [])
    ++ (if cond4 f then ["low-contrast-deception"] else [])
    ++ (if cond5 f then ["forced-interaction"] else [])
    ++ (if cond6 f then ["sneaky-preselection"] else [])
    ++ (if cond7 f then ["forced-continuity"] else [])
    ++ (if cond8 f then ["pressure-tactics"] else [])
    ++ (if cond9 f then ["intrusive-popup"] else [])

/-- The reasoning strings pushed by the triggered conditions, in order. -/
def triggeredReasons (f : Features) : List String :=
  (if cond1 f then ["Uses negative/guilt-inducing language"] else [])
    ++ (if cond2 f then ["Creates false sense of urgency with specific numbers"] else [])
    ++ (if cond3 f then ["Important interactive element has low visibility"] else [])
    ++ (if cond4 f then ["Low contrast used to hide important options"] else [])
    ++ (if cond5 f then ["Overlay forces user interaction"] else [])
    ++ (if cond6 f then ["Form has pre-selected options that benefit the company"] else [])
    ++ (if cond7 f then ["Element blocks user from completing desired action"] else [])
    ++ (if cond8 f then ["Combines time pressure with urgent language"] else [])
    ++ (if cond9 f then ["Popup appears immediately on page load"] else [])

/-- The `[...new Set(l)]` of JavaScript: keep the first occurrence of each
element, preserving order. -/
def dedupFirst : List String → List String → List String
  | _, [] => []
  | seen, x :: xs =>
      if x ∈ seen then dedupFirst seen xs
      else x :: dedupFirst (x :: seen) xs

/-- The result record of `makePredictions`. -/
structure Predictions where
  confidence : ℚ
  patterns : List String
  reasoning : List String
deriving DecidableEq

/-- The `makePredictions(features)`: mean of the triggered scores (0 when none
triggered), de-duplicated pattern names, ordered reasoning. -/
def makePredictions (f : Features) : Predictions :=
  let scores := triggeredScores f
  { confidence :=
      if scores.length > 0 then rdiv (scores.foldl radd 0) scores.length
      else 0
    patterns := dedupFirst [] (triggeredPatternNames f)
    reasoning := triggeredReasons f }

/-- The `HeuristicVerdict` returned by `AIDetector.detect`. -/
structure AIResult where
  isDarkPattern : Bool
  confidence : ℚ
  detectedPatterns : List String
  reasoning : List String
deriving DecidableEq

/-- The `AIDetector.detect(element)` at a given suspicion threshold
(`0.6` by default in the constructor). -/
def detect (threshold : ℚ) (e : Element) : AIResult :=
  let predictions := makePredictions (extractFeatures e)
  { isDarkPattern := decide (threshold ≤ predictions.confidence)
    confidence := predictions.confidence
    detectedPatterns := predictions.patterns
    reasoning := predictions.reasoning }

/-- The default suspicion threshold of the constructor (`0.6`, see
`defaultThreshold_eq`). -/
def defaultThreshold : ℚ := mkRat 6 10

/-! ## The rule database — `darkPatternRules.js` -/

/-- A detection rule.  A structural predicate returns `Except String Bool`;
`Except.error` models a thrown exception. -/
structure Rule where
  id : String
  category : String
  name : String
  severity : String
  patterns : List Re
  checkElement : Option (Element → Except String Bool)

/-- The `DarkPatternRules.categories`: the closed category enum. -/
def darkPatternCategories : List (String × String) :=
  [ ("URGENCY", "Urgency & Scarcity")
  , ("MISDIRECTION", "Misdirection")
  , ("SNEAKING", "Sneaking")
  , ("OBSTRUCTION", "Obstruction")
  , ("FORCED_ACTION", "Forced Action")
  , ("SOCIAL_PROOF", "Social Proof")
  , ("VISUAL_INTERFERENCE", "Visual Interference")
  , ("CONFIRMSHAMING", "Confirmshaming")
  , ("BAIT_AND_SWITCH", "Bait and Switch")
  , ("HIDDEN_COSTS", "Hidden Costs") ]

/-- The lower-cased text content a structural predicate works on. -/
def lowText (e : Element) : String := lowerStr e.textContent

/-- Rule `urgency-countdown`. -/
def urgencyCountdownRule : Rule :=
  { id := "urgency-countdown"
    category := "URGENCY"
    name := "Fake Urgency Timer"
    severity := "high"
    patterns :=
      [ cat [lit "only", wsP, digP, wsP, .alt (lit "left") (lit "remaining")]
      , altL [lit "hurry", cat [lit "act", wsP, lit "now"], cat [lit "limited", wsP, lit "time"]]
      , cat [lit "expire", optR (chr 's'), wsP, .alt (lit "in") (lit "within")]
      , cat [digP, chr ':', digP, chr ':', digP]
      , cat [lit "sale", wsP, lit "ends", wsP, .alt (lit "soon") (lit "today")] ]
    checkElement := some (fun e => .ok
      (e.hasTimerDescendant
        && reTest (altL [lit "only", lit "hurry", lit "limited", lit "expires"]) (lowText e))) }

/-- Rule `scarcity-stock`. -/
def scarcityStockRule : Rule :=
  { id := "scarcity-stock"
    category := "URGENCY"
    name := "Fake Scarcity"
    severity := "high"
    patterns :=
      [ cat [lit "only", wsP, digP, wsP, lit "left", wsP, lit "in", wsP, lit "stock"]
      , cat [digP, wsP, lit "people", wsP, .alt (lit "viewing") (lit "watching")]
      , cat [lit "almost", wsP, lit "gone"]
      , cat [lit "selling", wsP, lit "fast"] ]
    checkElement := some (fun e => .ok
      (reTest (cat [lit "only", wsP, digP, wsP,
        altL [lit "left", lit "remaining", cat [lit "in", wsP, lit "stock"]]]) (lowText e))) }

/-- Rule `confirmshaming`. -/
def confirmshamingRule : Rule :=
  { id := "confirmshaming"
    category := "CONFIRMSHAMING"
    name := "Confirmshaming"
    severity := "medium"
    patterns :=
      [ cat [lit "no", optR (chr ','), wsP, lit "i", wsP, lit "don", aposO, lit "t", wsP, lit "want"]
      , cat [lit "no", wsP, lit "thanks", optR (chr ','), wsP, lit "i", wsP,
          .alt (lit "prefer") (lit "like"), wsP, lit "to"]
      , cat [lit "i", wsP, lit "hate", wsP, altL [lit "money", lit "savings", lit "deals"]]
      , cat [lit "no", optR (chr ','), wsP, lit "i", aposO, lit "ll", wsP, lit "pay", wsP,
          .alt (lit "full") (lit "more")]
      , cat [lit "i", wsP, lit "don", aposO, lit "t", wsP, lit "want", wsP, lit "to", wsP,
          .alt (lit "save") (lit "win")] ]
    checkElement := some (fun e => .ok
      ((e.tagName == "BUTTON" || e.tagName == "A")
        && reTest (cat [lit "no", optR (chr ','), wsP, lit "i", wsP,
             altL [cat [lit "don", aposO, lit "t"], lit "hate", lit "prefer"]]) (lowText e))) }

/-- Rule `forced-continuity`. -/
def forcedContinuityRule : Rule :=
  { id := "forced-continuity"
    category := "SNEAKING"
    name := "Forced Continuity"
    severity := "high"
    patterns :=
      [ cat [lit "free", wsP, lit "trial", dotS, lit "automatically", wsP, lit "charged"]
      , cat [lit "cancel", wsP, lit "anytime", dotS, lit "billing", wsP, lit "starts"]
      , cat [lit "trial", dotS, lit "card", wsP, lit "required"] ]
    checkElement := some (fun e => .ok
      (reTest (cat [lit "free", dotS, lit "trial"]) (lowText e)
        && reTest (altL [lit "card", lit "billing", lit "charge"]) (lowText e))) }

/-- Rule `hidden-costs`. -/
def hiddenCostsRule : Rule :=
  { id := "hidden-costs"
    category := "HIDDEN_COSTS"
    name := "Hidden Costs"
    severity := "high"
    patterns :=
      [ cat [chr '+', wsS, lit "fee", optR (chr 's')]
      , cat [lit "additional", wsP, lit "charges"]
      , cat [lit "taxe", optR (chr 's'), wsP, lit "and", wsP, lit "fees"]
      , cat [lit "handling", wsP, lit "fee"] ]
    checkElement := some (fun e => .ok
      (e.hasFeeDescendant
        && (decide (e.fontSizePx = 10) || decide (e.fontSizePx < 12)))) }

/-- Rule `preselection`. -/
def preselectionRule : Rule :=
  { id := "preselection"
    category := "SNEAKING"
    name := "Preselected Options"
    severity := "medium"
    patterns := []
    checkElement := some (fun e => .ok
      (if e.tagName == "INPUT" && (e.inputType == "checkbox" || e.inputType == "radio") then
        (e.checked || e.hasCheckedAttr)
          && reTest (altL [lit "newsletter", lit "marketing", lit "promotional",
               cat [lit "third", dotC, lit "party"],
               cat [lit "share", dotS, .alt (lit "data") (lit "info")]])
             (lowerStr e.labelText)
      else false)) }

/-- Rule `disguised-ads`. -/
def disguisedAdsRule : Rule :=
  { id := "disguised-ads"
    category := "MISDIRECTION"
    name := "Disguised Ads"
    severity := "medium"
    patterns := [lit "download", lit "continue", lit "next"]
    checkElement := some (fun e => .ok
      ((e.tagName == "BUTTON" || e.tagName == "A")
        && !(strContains (lowerStr e.className) "ad")
        && reTest (altL [lit "download", lit "continue", lit "next"]) (lowText e)
        && (match e.href with
            | some h => strContains h "ad"
            | none => false))) }

/-- Rule `trick-question`. -/
def trickQuestionRule : Rule :=
  { id := "trick-question"
    category := "MISDIRECTION"
    name := "Trick Questions"
    severity := "high"
    patterns :=
      [ cat [lit "don", aposO, lit "t", wsP, lit "send"]
      , cat [lit "unsubscribe", dotS, lit "no"]
      , cat [lit "opt", optR dotC, lit "out", dotS, lit "unchecked"] ]
    checkElement := some (fun e => .ok
      (reTest (altL [cat [lit "don", aposO, lit "t"], lit "no", lit "not", lit "never",
          lit "unsubscribe"]) (lowText e)
        && e.hasCheckboxDescendant)) }

/-- Rule `roach-motel`. -/
def roachMotelRule : Rule :=
  { id := "roach-motel"
    category := "OBSTRUCTION"
    name := "Roach Motel"
    severity := "high"
    patterns :=
      [ cat [lit "contact", dotS, lit "cancel"]
      , cat [lit "call", dotS, lit "cancel"]
      , cat [lit "email", dotS, lit "cancel"] ]
    checkElement := some (fun e => .ok
      (reTest (altL [lit "cancel", lit "unsubscribe",
          cat [lit "delete", dotS, lit "account"]]) (lowText e)
        && reTest (altL [lit "contact", lit "call", lit "email", lit "phone"]) (lowText e))) }

/-- Rule `hard-to-cancel`. -/
def hardToCancelRule : Rule :=
  { id := "hard-to-cancel"
    category := "OBSTRUCTION"
    name := "Hard to Cancel"
    severity := "high"
    patterns := []
    checkElement := some (fun e => .ok
      (if reTest (altL [lit "cancel", cat [lit "close", dotS, lit "account"],
           lit "unsubscribe"]) (lowText e)
          && (e.tagName == "A" || e.tagName == "BUTTON") then
        decide (e.opacity < mkRat 5 10) || decide (e.fontSizePx = 10)
          || decide (e.fontSizePx < 11)
      else false)) }

/-- Rule `fake-social-proof`. -/
def fakeSocialProofRule : Rule :=
  { id := "fake-social-proof"
    category := "SOCIAL_PROOF"
    name := "Fake Social Proof"
    severity := "medium"
    patterns :=
      [ cat [digP, wsP, altL [lit "people", lit "users", lit "customers"], wsP,
          altL [lit "bought", lit "purchased", lit "viewing"]]
      , cat [lit "join", wsP, digP, wsP, .alt (lit "million") (lit "thousand")]
      , cat [lit "trending", wsP, lit "now"]
      , cat [chr '#', chr '1', wsP, lit "best", optR dotC, lit "seller"] ]
    checkElement := some (fun e => .ok
      (reTest (cat [digP, wsP, .alt (lit "people") (lit "users"), dotS,
          altL [lit "bought", lit "viewing", lit "joined"]]) (lowText e))) }

/-- Rule `visual-prominence`. -/
def visualProminenceRule : Rule :=
  { id := "visual-prominence"
    category := "VISUAL_INTERFERENCE"
    name := "Visual Prominence Imbalance"
    severity := "low"
    patterns := []
    checkElement := some (fun e => .ok
      (if e.tagName == "BUTTON" || e.tagName == "A" then
        if reTest (altL [lit "decline", lit "no", lit "skip", lit "cancel"]) (lowText e) then
          decide (e.opacity < mkRat 6 10) || decide (e.fontSizePx < 14)
        else false
      else false)) }

/-- Rule `forced-enrollment`. -/
def forcedEnrollmentRule : Rule :=
  { id := "forced-enrollment"
    category := "FORCED_ACTION"
    name := "Forced Account Creation"
    severity := "medium"
    patterns :=
      [ cat [lit "create", dotS, lit "account", dotS, lit "continue"]
      , cat [lit "sign", dotS, lit "up", dotS, lit "to", dotS, lit "view"]
      , cat [lit "register", dotS, lit "required"] ]
    checkElement := some (fun e => .ok
      (reTest (altL [cat [lit "create", dotS, lit "account"],
          cat [lit "sign", dotS, lit "up"], lit "register"]) (lowText e)
        && reTest (altL [lit "required", lit "must", lit "continue", lit "view"]) (lowText e))) }

/-- The `DarkPatternRules.rules`: the fixed rule list, in source order. -/
def darkPatternRulesList : List Rule :=
  [ urgencyCountdownRule
  , scarcityStockRule
  , confirmshamingRule
  , forcedContinuityRule
  , hiddenCostsRule
  , preselectionRule
  , disguisedAdsRule
  , trickQuestionRule
  , roachMotelRule
  , hardToCancelRule
  , fakeSocialProofRule
  , visualProminenceRule
  , forcedEnrollmentRule ]

/-! ## The detection engine — `darkPatternDetector.js` -/

/-- A `RuleMatch` produced by `applyRules`. -/
structure RuleMatch where
  ruleId : String
  ruleName : String
  category : String
  severity : String
  confidence : ℚ
deriving DecidableEq

/-- The match record pushed for a satisfied rule (confidence fixed at 0.9). -/
def ruleMatchOf (rule : Rule) : RuleMatch :=
  { ruleId := rule.id
    ruleName := rule.name
    category := rule.category
    severity := rule.severity
    confidence := mkRat 9 10 }

/-- The text-pattern part of a rule evaluation: does some pattern of the
rule match the element text?  (The source loop breaks at the first
matching pattern; `List.any` has the same value.) -/
def ruleTextMatch (rule : Rule) (e : Element) : Bool :=
  rule.patterns.any (fun p => reTestI p e.textContent)

/-- The structural predicate of a rule, run on an element (`.ok false` when
the rule has none). -/
def ruleCheckResult (rule : Rule) (e : Element) : Except String Bool :=
  match rule.checkElement with
  | none => .ok false
  | some check => check e

/-- The `isMatch` for one rule: a text pattern matches, or — otherwise — the
structural predicate returns `true`; a thrown predicate counts as a
non-match. -/
def ruleFires (rule : Rule) (e : Element) : Bool :=
  ruleTextMatch rule e
    || (match ruleCheckResult rule e with
        | .ok b => b
        | .error _ => false)

/-- The warning logged for one rule (non-empty exactly when no text pattern
matched and the structural predicate threw). -/
def ruleWarnings (rule : Rule) (e : Element) : List String :=
  if ruleTextMatch rule e then []
  else
    match ruleCheckResult rule e with
    | .ok _ => []
    | .error _ => ["Error checking rule " ++ rule.id]

/-- The `applyRules(element)` over an explicit rule list, also collecting the
warnings logged for structural predicates that threw.  For each rule: a text
pattern match wins first; otherwise the structural predicate runs, a thrown
error being logged and treated as a non-match; evaluation always continues
with the remaining rules. -/
def applyRulesLog (rules : List Rule) (e : Element) :
    List RuleMatch × List String :=
  match rules with
  | [] => ([], [])
  | rule :: rest =>
      let restResult := applyRulesLog rest e
      ((if ruleFires rule e then ruleMatchOf rule :: restResult.1
        else restResult.1),
        ruleWarnings rule e ++ restResult.2)

/-- The matches of `applyRules` over an explicit rule list. -/
def applyRulesWith (rules : List Rule) (e : Element) : List RuleMatch :=
  (applyRulesLog rules e).1

/-- The `applyRules(element)` with the fixed rule database of the engine. -/
def applyRules (e : Element) : List RuleMatch :=
  applyRulesWith darkPatternRulesList e

/-- The engine configuration (`this.config`). -/
structure Config where
  enableRuleBased : Bool
  enableAIBased : Bool
  minConfidence : ℚ
  scanDepth : String
  excludeSelectors : List String
deriving DecidableEq

/-- The default configuration set by the constructor. -/
def defaultConfig : Config :=
  { enableRuleBased := true
    enableAIBased := true
    minConfidence := mkRat 5 10
    scanDepth := "full"
    excludeSelectors := [".dark-pattern-badge"] }

/-- The `calculateOverallConfidence(ruleResults, aiResult)`: 0.6 times the mean
rule confidence when rules matched, plus 0.4 times the heuristic confidence
when the heuristic verdict is positive. -/
def calculateOverallConfidence (ruleResults : List RuleMatch)
    (aiResult : Option AIResult) : ℚ :=
  let ruleTerm : ℚ :=
    if ruleResults.length > 0 then
      rmul (rdiv (ruleResults.foldl (fun sum r => radd sum r.confidence) 0)
        ruleResults.length) (mkRat 6 10)
    else 0
  let aiTerm : ℚ :=
    match aiResult with
    | some a => if a.isDarkPattern then rmul a.confidence (mkRat 4 10) else 0
    | none => 0
  let count : ℕ :=
    (if ruleResults.length > 0 then 1 else 0)
      + (match aiResult with
         | some a => if a.isDarkPattern then 1 else 0
         | none => 0)
  if count > 0 then radd ruleTerm aiTerm else 0

/-- The `determineSeverity(ruleResults, aiResult)`. -/
def determineSeverity (ruleResults : List RuleMatch)
    (aiResult : Option AIResult) : String :=
  let severities := ruleResults.map (fun r => r.severity)
  if severities.contains "high" then "high"
  else if severities.contains "medium" then "medium"
  else if severities.contains "low" then "low"
  else
    match aiResult with
    | some a =>
        if a.isDarkPattern then
          if a.confidence > mkRat 8 10 then "high"
          else if a.confidence > mkRat 6 10 then "medium"
          else "low"
        else "low"
    | none => "low"

/-- The `generateRecommendations(ruleResults, aiResult)`: category-keyed advice,
then the AI reasoning strings, de-duplicated. -/
def generateRecommendations (ruleResults : List RuleMatch)
    (aiResult : Option AIResult) : List String :=
  let categories := ruleResults.map (fun r => r.category)
  let recommendations :=
    (if categories.contains "URGENCY" then
      [ "Remove or verify artificial urgency claims"
      , "Ensure scarcity claims are accurate and not misleading" ]
     else [])
    ++ (if categories.contains "CONFIRMSHAMING" then
      [ "Use neutral language for decline options"
      , "Respect user choice without guilt-inducing language" ]
     else [])
    ++ (if categories.contains "SNEAKING" then
      [ "Make all costs and terms transparent upfront"
      , "Remove pre-selected options that benefit the company" ]
     else [])
    ++ (if categories.contains "OBSTRUCTION" then
      [ "Make cancellation as easy as subscription"
      , "Provide clear, accessible exit options" ]
     else [])
    ++ (if categories.contains "VISUAL_INTERFERENCE" then
      [ "Ensure equal visual prominence for all options"
      , "Maintain adequate contrast and readability" ]
     else [])
    ++ (match aiResult with
        | some a => a.reasoning.map (fun reason => "AI detected: " ++ reason)
        | none => [])
  dedupFirst [] recommendations

/-- The fused per-element `Detection` (the element reference and the
presentational `elementInfo` snapshot, which are host-document data, are not
part of the embedding). -/
structure Detection where
  ruleMatches : List RuleMatch
  aiDetection : Option AIResult
  confidence : ℚ
  severity : String
  recommendations : List String
deriving DecidableEq

/-- The result of `analyzeElement`: either `{ detected: false }` or a full
detection record. -/
inductive AnalysisResult where
  | notDetected : AnalysisResult
  | found : Detection → AnalysisResult
deriving DecidableEq

/-- The `detected` flag of an analysis result. -/
def AnalysisResult.detected : AnalysisResult → Bool
  | .notDetected => false
  | .found _ => true

/-- The rule-match list of an analysis result (empty when not detected). -/
def AnalysisResult.ruleMatchList : AnalysisResult → List RuleMatch
  | .notDetected => []
  | .found d => d.ruleMatches

/-- The severity of an analysis result (empty string when not detected). -/
def AnalysisResult.severityStr : AnalysisResult → String
  | .notDetected => ""
  | .found d => d.severity

/-- The fused confidence of an analysis result (0 when not detected). -/
def AnalysisResult.confidenceVal : AnalysisResult → ℚ
  | .notDetected => 0
  | .found d => d.confidence

/-- The recommendation list of an analysis result. -/
def AnalysisResult.recommendationList : AnalysisResult → List String
  | .notDetected => []
  | .found d => d.recommendations

/-- The `aiResult && aiResult.isDarkPattern` of the source: is a (possibly
absent) heuristic verdict positive? -/
def aiPositive : Option AIResult → Bool
  | some a => a.isDarkPattern
  | none => false

/-- The `analyzeElement(element)` over an explicit rule list, configuration and
suspicion threshold. -/
def analyzeElementWith (rules : List Rule) (cfg : Config) (threshold : ℚ)
    (e : Element) : AnalysisResult :=
  let ruleResults := if cfg.enableRuleBased then applyRulesWith rules e else []
  let aiResult := if cfg.enableAIBased then some (detect threshold e) else none
  let detected := ruleResults.length > 0 || aiPositive aiResult
  if detected then
    .found
      { ruleMatches := ruleResults
        aiDetection := aiResult
        confidence := calculateOverallConfidence ruleResults aiResult
        severity := determineSeverity ruleResults aiResult
        recommendations := generateRecommendations ruleResults aiResult }
  else .notDetected

/-- The `analyzeElement(element)` with the fixed rule database of the engine. -/
def analyzeElement (cfg : Config) (threshold : ℚ) (e : Element) :
    AnalysisResult :=
  analyzeElementWith darkPatternRulesList cfg threshold e

/-! ### Engine state

`DarkPatternDetector` holds `config`, `rules`, `detectionResults` and an
`AIDetector` whose only state is the suspicion threshold.  `analyzeElement`
reads this state and writes none of it, which the embedding makes explicit
by returning the state unchanged. -/

/-- The mutable state of a `DarkPatternDetector` instance. -/
structure EngineState where
  config : Config
  rules : List Rule
  detectionResults : List Detection
  suspicionThreshold : ℚ

/-- The `analyzeElement` as a state transition: it returns its result and leaves
the engine state untouched (the source method assigns no instance field). -/
def analyzeElementRun (s : EngineState) (e : Element) :
    AnalysisResult × EngineState :=
  (analyzeElementWith s.rules s.config s.suspicionThreshold e, s)

/-- A partial configuration argument for `setConfig`; `none` models an
absent key. -/
structure PartialConfig where
  enableRuleBased : Option Bool
  enableAIBased : Option Bool
  minConfidence : Option ℚ
  scanDepth : Option String
  excludeSelectors : Option (List String)

/-- The `setConfig(newConfig)`: `this.config = { ...this.config, ...newConfig }`. -/
def setConfig (s : EngineState) (p : PartialConfig) : EngineState :=
  { s with
    config :=
      { enableRuleBased := p.enableRuleBased.getD s.config.enableRuleBased
        enableAIBased := p.enableAIBased.getD s.config.enableAIBased
        minConfidence := p.minConfidence.getD s.config.minConfidence
        scanDepth := p.scanDepth.getD s.config.scanDepth
        excludeSelectors := p.excludeSelectors.getD s.config.excludeSelectors } }

/-! ### The scan summary — `generateSummary` -/

/-- The severity counters of the summary. -/
structure SeverityCounts where
  high : ℕ
  medium : ℕ
  low : ℕ
deriving DecidableEq

/-- One entry of the top-issue list of the summary. -/
structure TopIssue where
  category : String
  count : ℕ
  categoryName : String
deriving DecidableEq

/-- The scan summary. -/
structure Summary where
  totalDetections : ℕ
  bySeverity : SeverityCounts
  byCategory : List (String × ℕ)
  topIssues : List TopIssue
deriving DecidableEq

/-- The `summary.bySeverity[result.severity]++`. -/
def bumpSeverity (s : SeverityCounts) (sev : String) : SeverityCounts :=
  if sev = "high" then { s with high := s.high + 1 }
  else if sev = "medium" then { s with medium := s.medium + 1 }
  else if sev = "low" then { s with low := s.low + 1 }
  else s

/-- The `summary.byCategory[category] = (summary.byCategory[category] || 0) + 1`
on an insertion-ordered association list (the iteration order of a
JavaScript object with string keys). -/
def bumpCategory : List (String × ℕ) → String → List (String × ℕ)
  | [], c => [(c, 1)]
  | (k, n) :: rest, c =>
      if k = c then (k, n + 1) :: rest else (k, n) :: bumpCategory rest c

/-- The category counts accumulated over the detection list. -/
def byCategoryOf (results : List Detection) : List (String × ℕ) :=
  results.foldl
    (fun m r => r.ruleMatches.foldl (fun m mt => bumpCategory m mt.category) m)
    []

/-- A stable descending sort by count (the observable behavior of the
stable source sort `sort((a, b) => b[1] - a[1])`). -/
def insertDescByCount (x : String × ℕ) : List (String × ℕ) → List (String × ℕ)
  | [] => [x]
  | y :: ys => if x.2 > y.2 then x :: y :: ys else y :: insertDescByCount x ys

/-- Stable descending sort of the category entries. -/
def sortDescByCount (l : List (String × ℕ)) : List (String × ℕ) :=
  l.foldl (fun acc x => insertDescByCount x acc) []

/-- The `generateSummary()` over a detection list. -/
def generateSummary (results : List Detection) : Summary :=
  let bySeverity :=
    results.foldl (fun acc r => bumpSeverity acc r.severity) ⟨0, 0, 0⟩
  let byCategory := byCategoryOf results
  let categoryEntries := (sortDescByCount byCategory).take 5
  { totalDetections := results.length
    bySeverity := bySeverity
    byCategory := byCategory
    topIssues := categoryEntries.map (fun p =>
      { category := p.1
        count := p.2
        categoryName := ((darkPatternCategories.lookup p.1).getD p.1) }) }

/-! ## Concrete elements used by the theorems below -/

/-- A neutral element: empty text, `DIV`, fully opaque, 16px, static
position, black text on a white background, no special attributes,
descendants or ancestors. -/
def plainElement : Element :=
  { textContent := ""
    tagName := "DIV"
    className := ""
    inputType := ""
    checked := false
    hasCheckedAttr := false
    labelText := ""
    href := none
    hasOnclickAttr := false
    hasDataOnload := false
    opacity := 1
    fontSizePx := 16
    position := "static"
    zIndexVal := 0
    colorRGB := some (0, 0, 0)
    backgroundRGB := some (255, 255, 255)
    inlineCursorPointer := false
    inlinePointerEventsNone := false
    hasTimerDescendant := false
    hasFeeDescendant := false
    hasCheckboxDescendant := false
    hasFormDescendant := false
    hasInputDescendant := false
    hasCheckedCheckboxRadioDescendant := false
    ancestorClasses := [] }

/-- The button of the confirmshaming scenario in the spec, with its exact
text. -/
def buttonHateSaving : Element :=
  { plainElement with
    textContent := "No thanks, I hate saving money"
    tagName := "BUTTON" }

/-- A confirmshaming button whose text the rule patterns do match. -/
def buttonHateMoney : Element :=
  { plainElement with
    textContent := "No thanks, I hate money"
    tagName := "BUTTON" }

/-- A nearly transparent interactive link (the heuristic-only case). -/
def dimLink : Element :=
  { plainElement with
    tagName := "A"
    opacity := mkRat 3 10
    hasOnclickAttr := true }

/-- A plain element whose text matches the high-severity urgency rule. -/
def hurryElement : Element :=
  { plainElement with textContent := "hurry" }

/-- A small decline button, matched only by the low-severity
visual-prominence rule. -/
def skipButton : Element :=
  { plainElement with
    textContent := "skip"
    tagName := "BUTTON"
    fontSizePx := 12 }

/-- A rule whose structural predicate always throws. -/
def throwingRule : Rule :=
  { id := "bad-rule"
    category := "URGENCY"
    name := "Bad Rule"
    severity := "high"
    patterns := []
    checkElement := some (fun _ => .error "boom") }

/-- A detection carrying one confirmshaming rule match (for summary
theorems). -/
def sampleRuleDetection : Detection :=
  { ruleMatches := [ruleMatchOf confirmshamingRule]
    aiDetection := none
    confidence := mkRat 54 100
    severity := "medium"
    recommendations := [] }

/-- A heuristic-only detection: no rule matches (for summary theorems). -/
def sampleHeuristicDetection : Detection :=
  { ruleMatches := []
    aiDetection := none
    confidence := mkRat 34 100
    severity := "medium"
    recommendations := [] }

/-- A partial configuration with no key present. -/
def emptyPartialConfig : PartialConfig :=
  { enableRuleBased := none
    enableAIBased := none
    minConfidence := none
    scanDepth := none
    excludeSelectors := none }

/-- The engine state produced by the constructor. -/
def initialEngineState : EngineState :=
  { config := defaultConfig
    rules := darkPatternRulesList
    detectionResults := []
    suspicionThreshold := defaultThreshold }

/-- The rank of a severity string (`high > medium > low`). -/
def sevRank (s : String) : ℕ :=
  if s = "high" then 3
  else if s = "medium" then 2
  else if s = "low" then 1
  else 0

/-! ## Theorems

First the arithmetic bridges for `radd`, `rsub`, `rmul`, `rdiv`, then
auxiliary lemmas, then one theorem per specification claim. -/

theorem mkRat_eq_div (n : ℤ) (d : ℕ) : mkRat n d = (n : ℚ) / (d : ℚ) := by
  rw [Rat.mkRat_eq_divInt, Rat.divInt_eq_div]
  norm_num

theorem radd_eq (a b : ℚ) : radd a b = a + b := by
  have ha : ((a.den : ℚ)) ≠ 0 := by
    exact_mod_cast a.den_ne_zero
  have hb : ((b.den : ℚ)) ≠ 0 := by
    exact_mod_cast b.den_ne_zero
  rw [radd, mkRat_eq_div]
  conv_rhs => rw [← Rat.num_div_den a, ← Rat.num_div_den b]
  rw [div_add_div _ _ ha hb]
  push_cast
  ring_nf

theorem rneg_eq (a : ℚ) : rneg a = -a := by
  have ha : ((a.den : ℚ)) ≠ 0 := by
    exact_mod_cast a.den_ne_zero
  rw [rneg, mkRat_eq_div]
  conv_rhs => rw [← Rat.num_div_den a]
  push_cast
  ring_nf

theorem rsub_eq (a b : ℚ) : rsub a b = a - b := by
  rw [rsub, radd_eq, rneg_eq, sub_eq_add_neg]

theorem rmul_eq (a b : ℚ) : rmul a b = a * b := by
  have ha : ((a.den : ℚ)) ≠ 0 := by
    exact_mod_cast a.den_ne_zero
  have hb : ((b.den : ℚ)) ≠ 0 := by
    exact_mod_cast b.den_ne_zero
  rw [rmul, mkRat_eq_div]
  conv_rhs => rw [← Rat.num_div_den a, ← Rat.num_div_den b]
  rw [div_mul_div_comm]
  push_cast
  try ring_nf

theorem rdiv_eq (a b : ℚ) : rdiv a b = a / b := by
  have main : ∀ x y z w : ℚ, y ≠ 0 → z ≠ 0 → w ≠ 0 →
      (x * w) / (y * z) = (x / y) / (z / w) := by
    intro x y z w hy hz hw
    field_simp
    try ring
  rcases eq_or_ne b 0 with hb | hb
  · subst hb
    simp [rdiv]
  · have hnum : b.num ≠ 0 := Rat.num_ne_zero.mpr hb
    have hbden : ((b.den : ℚ)) ≠ 0 := by
      exact_mod_cast b.den_ne_zero
    have haden : ((a.den : ℚ)) ≠ 0 := by
      exact_mod_cast a.den_ne_zero
    have hbq : ((b.num : ℚ)) ≠ 0 := by
      exact_mod_cast hnum
    rw [rdiv]
    split
    · rename_i hpos
      rw [mkRat_eq_div]
      push_cast [Int.cast_natAbs]
      rw [abs_of_nonneg (by exact_mod_cast hpos : (0 : ℚ) ≤ (b.num : ℚ))]
      rw [main _ _ _ _ haden hbq hbden, Rat.num_div_den, Rat.num_div_den]
    · rename_i hneg
      push_neg at hneg
      rw [mkRat_eq_div]
      push_cast [Int.cast_natAbs]
      rw [abs_of_neg (by exact_mod_cast hneg : (b.num : ℚ) < 0)]
      rw [mul_neg, neg_div_neg_eq]
      rw [main _ _ _ _ haden hbq hbden, Rat.num_div_den, Rat.num_div_den]

/-- The left fold the source uses to sum a list (`reduce((a, b) => a + b, 0)`)
agrees with `List.sum`. -/
theorem foldl_radd_eq_sum (l : List ℚ) (a : ℚ) :
    l.foldl radd a = a + l.sum := by
  induction l generalizing a with
  | nil => simp
  | cons x xs ih =>
    simp only [List.foldl_cons, List.sum_cons, ih, radd_eq]
    ring


theorem defaultThreshold_eq : defaultThreshold = 0.6 := by
  norm_num [defaultThreshold, mkRat_eq_div]

/-! ### Auxiliary lemmas -/

theorem mem_ite_singleton {α : Type} {b : Bool} {a x : α}
    (h : x ∈ if b = true then [a] else ([] : List α)) : x = a := by
  cases b
  · simp at h
  · simpa using h

theorem sum_map_conf (l : List RuleMatch)
    (h : ∀ m ∈ l, m.confidence = mkRat 9 10) :
    (l.map (fun r => r.confidence)).sum = mkRat 9 10 * l.length := by
  induction l with
  | nil => simp
  | cons x xs ih =>
    have hx := h x (List.mem_cons_self x xs)
    have hxs := ih (fun m hm => h m (List.mem_cons_of_mem _ hm))
    simp only [List.map_cons, List.sum_cons, hx, hxs, List.length_cons]
    push_cast
    ring

theorem list_sum_le_mul_length (l : List ℚ) (b : ℚ) (h : ∀ x ∈ l, x ≤ b) :
    l.sum ≤ b * l.length := by
  induction l with
  | nil => simp
  | cons x xs ih =>
    have hx := h x (List.mem_cons_self x xs)
    have hxs := ih (fun y hy => h y (List.mem_cons_of_mem _ hy))
    simp only [List.sum_cons, List.length_cons]
    push_cast
    linarith

theorem mul_length_le_list_sum (l : List ℚ) (a : ℚ) (h : ∀ x ∈ l, a ≤ x) :
    a * l.length ≤ l.sum := by
  induction l with
  | nil => simp
  | cons x xs ih =>
    have hx := h x (List.mem_cons_self x xs)
    have hxs := ih (fun y hy => h y (List.mem_cons_of_mem _ hy))
    simp only [List.sum_cons, List.length_cons]
    push_cast
    linarith

theorem applyRulesWith_nil (e : Element) : applyRulesWith [] e = [] := rfl

theorem applyRulesWith_cons (r : Rule) (rs : List Rule) (e : Element) :
    applyRulesWith (r :: rs) e =
      if ruleFires r e then ruleMatchOf r :: applyRulesWith rs e
      else applyRulesWith rs e := by
  simp only [applyRulesWith, applyRulesLog]

theorem mem_applyRulesWith {rules : List Rule} {e : Element} {m : RuleMatch}
    (hm : m ∈ applyRulesWith rules e) :
    ∃ r ∈ rules, ruleFires r e = true ∧ m = ruleMatchOf r := by
  induction rules with
  | nil => simp [applyRulesWith_nil] at hm
  | cons r rs ih =>
    rw [applyRulesWith_cons] at hm
    split at hm
    · rcases List.mem_cons.mp hm with rfl | hm1
      · exact ⟨r, List.mem_cons_self r rs, by assumption, rfl⟩
      · obtain ⟨r2, hr2, hf, hm2⟩ := ih hm1
        exact ⟨r2, List.mem_cons_of_mem _ hr2, hf, hm2⟩
    · obtain ⟨r2, hr2, hf, hm2⟩ := ih hm
      exact ⟨r2, List.mem_cons_of_mem _ hr2, hf, hm2⟩

theorem applyRulesWith_confidence {rules : List Rule} {e : Element}
    {m : RuleMatch} (hm : m ∈ applyRulesWith rules e) :
    m.confidence = mkRat 9 10 := by
  obtain ⟨r, _, _, rfl⟩ := mem_applyRulesWith hm
  rfl

theorem darkPatternRules_severities :
    ∀ r ∈ darkPatternRulesList,
      r.severity = "high" ∨ r.severity = "medium" ∨ r.severity = "low" := by
  intro r hr
  simp only [darkPatternRulesList, List.mem_cons, List.not_mem_nil,
    or_false] at hr
  rcases hr with rfl | rfl | rfl | rfl | rfl | rfl | rfl | rfl | rfl | rfl
    | rfl | rfl | rfl
  all_goals simp [urgencyCountdownRule, scarcityStockRule, confirmshamingRule,
    forcedContinuityRule, hiddenCostsRule, preselectionRule, disguisedAdsRule,
    trickQuestionRule, roachMotelRule, hardToCancelRule, fakeSocialProofRule,
    visualProminenceRule, forcedEnrollmentRule]

theorem applyRules_severity {e : Element} {m : RuleMatch}
    (hm : m ∈ applyRules e) :
    m.severity = "high" ∨ m.severity = "medium" ∨ m.severity = "low" := by
  obtain ⟨r, hr, _, rfl⟩ := mem_applyRulesWith hm
  exact darkPatternRules_severities r hr

theorem foldl_add_conf_eq_sum (l : List RuleMatch) : ∀ a : ℚ,
    l.foldl (fun sum r => sum + r.confidence) a
      = a + (l.map (fun r => r.confidence)).sum := by
  induction l with
  | nil => intro a; simp
  | cons x xs ih =>
    intro a
    simp only [List.foldl_cons, List.map_cons, List.sum_cons, ih]
    ring

theorem foldl_radd_conf_eq_sum (l : List RuleMatch) (a : ℚ) :
    l.foldl (fun sum r => radd sum r.confidence) a
      = a + (l.map (fun r => r.confidence)).sum := by
  simp only [radd_eq]
  exact foldl_add_conf_eq_sum l a

theorem calculateOverallConfidence_some_eq (rm : List RuleMatch)
    (a : AIResult) :
    calculateOverallConfidence rm (some a) =
      (if 0 < rm.length then
        ((rm.map (fun r => r.confidence)).sum / (rm.length : ℚ)) * 0.6
       else 0)
      + (if a.isDarkPattern then a.confidence * 0.4 else 0) := by
  have h6 : mkRat 6 10 = (0.6 : ℚ) := by norm_num [mkRat_eq_div]
  have h4 : mkRat 4 10 = (0.4 : ℚ) := by norm_num [mkRat_eq_div]
  unfold calculateOverallConfidence
  rcases Nat.eq_zero_or_pos rm.length with hlen | hlen
  · by_cases hd : a.isDarkPattern
    · simp [hlen, hd, radd_eq, rmul_eq, h4]
    · simp [hlen, hd]
  · by_cases hd : a.isDarkPattern
    · simp [gt_iff_lt, hlen, hd, radd_eq, rmul_eq, rdiv_eq,
        foldl_add_conf_eq_sum, h6, h4]
    · simp [gt_iff_lt, hlen, hd, radd_eq, rmul_eq, rdiv_eq,
        foldl_add_conf_eq_sum, h6, h4]

theorem applyRules_mean (e : Element) (hlen : 0 < (applyRules e).length) :
    ((applyRules e).map (fun r => r.confidence)).sum
      / ((applyRules e).length : ℚ) = 0.9 := by
  have hconf : ∀ m ∈ applyRules e, m.confidence = mkRat 9 10 :=
    fun m hm => applyRulesWith_confidence hm
  rw [sum_map_conf _ hconf]
  have hl : ((applyRules e).length : ℚ) ≠ 0 := by
    exact_mod_cast Nat.pos_iff_ne_zero.mp hlen
  rw [mul_div_assoc, div_self hl, mul_one]
  norm_num [mkRat_eq_div]

theorem triggeredScores_bounds (f : Features) :
    ∀ x ∈ triggeredScores f, (0.6 : ℚ) ≤ x ∧ x ≤ 0.9 := by
  intro x hx
  simp only [triggeredScores, List.mem_append] at hx
  rcases hx with ((((((((h | h) | h) | h) | h) | h) | h) | h) | h) <;>
  · obtain rfl := mem_ite_singleton h
    exact ⟨by norm_num [mkRat_eq_div], by norm_num [mkRat_eq_div]⟩

theorem makePredictions_confidence_proj (f : Features) :
    (makePredictions f).confidence =
      if (triggeredScores f).length > 0 then
        rdiv ((triggeredScores f).foldl radd 0) ((triggeredScores f).length : ℚ)
      else 0 := rfl

theorem makePredictions_confidence_eq (f : Features) :
    (makePredictions f).confidence =
      if triggeredScores f = [] then 0
      else (triggeredScores f).sum / ((triggeredScores f).length : ℚ) := by
  rw [makePredictions_confidence_proj]
  rcases eq_or_ne (triggeredScores f) [] with hs | hs
  · rw [hs]
    simp
  · have hlen : 0 < (triggeredScores f).length := List.length_pos.mpr hs
    rw [if_pos hlen, if_neg hs, rdiv_eq, foldl_radd_eq_sum, zero_add]

theorem makePredictions_confidence_cases (f : Features) :
    (triggeredScores f = [] ∧ (makePredictions f).confidence = 0)
    ∨ (triggeredScores f ≠ [] ∧ (0.6 : ℚ) ≤ (makePredictions f).confidence
        ∧ (makePredictions f).confidence ≤ 0.9) := by
  rw [makePredictions_confidence_eq]
  rcases eq_or_ne (triggeredScores f) [] with hs | hs
  · left
    simp [hs]
  · right
    have hlen : 0 < (triggeredScores f).length := List.length_pos.mpr hs
    have hQ : (0 : ℚ) < ((triggeredScores f).length : ℚ) := by
      exact_mod_cast hlen
    have hb := triggeredScores_bounds f
    rw [if_neg hs]
    refine ⟨hs, ?_, ?_⟩
    · rw [le_div_iff hQ]
      have := mul_length_le_list_sum (triggeredScores f) 0.6
        (fun x hx => (hb x hx).1)
      linarith
    · rw [div_le_iff hQ]
      have := list_sum_le_mul_length (triggeredScores f) 0.9
        (fun x hx => (hb x hx).2)
      linarith

theorem dedupFirst_cons (seen : List String) (x : String) (xs : List String) :
    dedupFirst seen (x :: xs) =
      if x ∈ seen then dedupFirst seen xs
      else x :: dedupFirst (x :: seen) xs := rfl

theorem dedupFirst_spec (l : List String) : ∀ seen : List String,
    (∀ x, x ∈ dedupFirst seen l ↔ x ∈ l ∧ x ∉ seen)
      ∧ (dedupFirst seen l).Nodup := by
  induction l with
  | nil => intro seen; simp [dedupFirst]
  | cons y ys ih =>
    intro seen
    by_cases hy : y ∈ seen
    · have h := ih seen
      rw [show dedupFirst seen (y :: ys) = dedupFirst seen ys from by
        rw [dedupFirst_cons, if_pos hy]]
      refine ⟨fun x => ?_, h.2⟩
      rw [h.1 x]
      simp only [List.mem_cons]
      constructor
      · rintro ⟨hx, hnot⟩
        exact ⟨Or.inr hx, hnot⟩
      · rintro ⟨rfl | hx, hnot⟩
        · exact absurd hy hnot
        · exact ⟨hx, hnot⟩
    · have h := ih (y :: seen)
      rw [show dedupFirst seen (y :: ys) = y :: dedupFirst (y :: seen) ys from by
        rw [dedupFirst_cons, if_neg hy]]
      constructor
      · intro x
        simp only [List.mem_cons, h.1 x]
        constructor
        · rintro (rfl | ⟨hx, hnot⟩)
          · exact ⟨Or.inl rfl, hy⟩
          · exact ⟨Or.inr hx, fun hc => hnot (Or.inr hc)⟩
        · rintro ⟨rfl | hx, hnot⟩
          · exact Or.inl rfl
          · by_cases hxy : x = y
            · exact Or.inl hxy
            · exact Or.inr ⟨hx, fun hc => hc.elim hxy hnot⟩
      · refine List.nodup_cons.mpr ⟨fun hmem => ?_, h.2⟩
        have := (h.1 y).mp hmem
        exact this.2 (List.mem_cons_self y seen)

theorem makePredictions_patterns (f : Features) :
    (makePredictions f).patterns = dedupFirst [] (triggeredPatternNames f) :=
  rfl

theorem makePredictions_reasoning (f : Features) :
    (makePredictions f).reasoning = triggeredReasons f := rfl

theorem detect_patterns (t : ℚ) (e : Element) :
    (detect t e).detectedPatterns =
      (makePredictions (extractFeatures e)).patterns := by
  simp only [detect]

theorem detect_reasoning (t : ℚ) (e : Element) :
    (detect t e).reasoning =
      (makePredictions (extractFeatures e)).reasoning := by
  simp only [detect]

theorem detect_isDarkPattern (t : ℚ) (e : Element) :
    (detect t e).isDarkPattern =
      decide (t ≤ (makePredictions (extractFeatures e)).confidence) := by
  simp only [detect]

theorem detect_confidence (t : ℚ) (e : Element) :
    (detect t e).confidence =
      (makePredictions (extractFeatures e)).confidence := by
  simp only [detect]

/-! ### Claim C5 -/

/-- C5: the confidence of the heuristic verdict is the arithmetic mean of the
triggered condition scores (0 when none trigger); `isDarkPattern` holds
exactly when the confidence reaches the suspicion threshold; the detected
pattern names have set semantics (no duplicates, membership exactly the
triggered names); the reasoning strings are the ordered list of triggered
reasons. -/
theorem heuristicVerdict_spec (t : ℚ) (e : Element) :
    ((detect t e).confidence =
      if triggeredScores (extractFeatures e) = [] then 0
      else (triggeredScores (extractFeatures e)).sum
        / ((triggeredScores (extractFeatures e)).length : ℚ))
    ∧ ((detect t e).isDarkPattern = true ↔ t ≤ (detect t e).confidence)
    ∧ (detect t e).detectedPatterns.Nodup
    ∧ (∀ p, p ∈ (detect t e).detectedPatterns ↔
        p ∈ triggeredPatternNames (extractFeatures e))
    ∧ (detect t e).reasoning = triggeredReasons (extractFeatures e) := by
  have hpat : (detect t e).detectedPatterns
      = dedupFirst [] (triggeredPatternNames (extractFeatures e)) :=
    (detect_patterns t e).trans (makePredictions_patterns _)
  have hreas : (detect t e).reasoning
      = triggeredReasons (extractFeatures e) :=
    (detect_reasoning t e).trans (makePredictions_reasoning _)
  refine ⟨?_, ?_, ?_, ?_, hreas⟩
  · rw [detect_confidence, makePredictions_confidence_eq]
  · rw [detect_isDarkPattern, detect_confidence, decide_eq_true_iff]
  · rw [hpat]
    exact (dedupFirst_spec (triggeredPatternNames (extractFeatures e)) []).2
  · intro p
    rw [hpat]
    have h :=
      ((dedupFirst_spec (triggeredPatternNames (extractFeatures e)) []).1 p)
    simpa using h

/-! ### Claim C9 -/

/-- C9: every score in the heuristic condition table is at least 0.6, so the
mean confidence is at least 0.6 as soon as one condition triggers; hence at
the default suspicion threshold the verdict is positive whenever any
condition triggers, and a positive confidence is never strictly between 0
and 0.6. -/
theorem heuristicThreshold_spec (e : Element) :
    (∀ s ∈ triggeredScores (extractFeatures e), (0.6 : ℚ) ≤ s)
    ∧ (triggeredScores (extractFeatures e) ≠ [] →
        (0.6 : ℚ) ≤ (makePredictions (extractFeatures e)).confidence)
    ∧ (triggeredScores (extractFeatures e) ≠ [] →
        (detect defaultThreshold e).isDarkPattern = true)
    ∧ (0 < (makePredictions (extractFeatures e)).confidence →
        (0.6 : ℚ) ≤ (makePredictions (extractFeatures e)).confidence) := by
  have hb := triggeredScores_bounds (extractFeatures e)
  have hcases := makePredictions_confidence_cases (extractFeatures e)
  have hge : triggeredScores (extractFeatures e) ≠ [] →
      (0.6 : ℚ) ≤ (makePredictions (extractFeatures e)).confidence := by
    intro hne
    rcases hcases with ⟨h0, _⟩ | ⟨_, h1, _⟩
    · exact absurd h0 hne
    · exact h1
  refine ⟨fun s hs => (hb s hs).1, hge, ?_, ?_⟩
  · intro hne
    rw [detect_isDarkPattern, decide_eq_true_iff, defaultThreshold_eq]
    exact hge hne
  · intro hpos
    rcases hcases with ⟨_, h0⟩ | ⟨_, h1, _⟩
    · rw [h0] at hpos
      exact absurd hpos (lt_irrefl 0)
    · exact h1

/-! ### Claim C1 -/

/-- C1: the fused confidence is `0.6 × mean(rule confidences)` (term present
only when rules matched) plus `0.4 × heuristic confidence` (term present
only when the heuristic verdict is positive), with no renormalization; it
always lies in `[0, 1]`; with only rule matches it equals `0.6 × mean` and
is at most `0.54` (every rule confidence being the fixed `0.9`); with only
the heuristic side it equals `0.4 × heuristic confidence` and is at most
`0.4`. -/
theorem fusedConfidence_spec (e : Element) (t : ℚ) :
    (calculateOverallConfidence (applyRules e) (some (detect t e)) =
      (if 0 < (applyRules e).length then
        (0.6 : ℚ) * (((applyRules e).map (fun r => r.confidence)).sum
          / ((applyRules e).length : ℚ))
       else 0)
      + (if (detect t e).isDarkPattern then
          (0.4 : ℚ) * (detect t e).confidence
         else 0))
    ∧ 0 ≤ calculateOverallConfidence (applyRules e) (some (detect t e))
    ∧ calculateOverallConfidence (applyRules e) (some (detect t e)) ≤ 1
    ∧ (0 < (applyRules e).length → (detect t e).isDarkPattern = false →
        calculateOverallConfidence (applyRules e) (some (detect t e)) =
          (0.6 : ℚ) * (((applyRules e).map (fun r => r.confidence)).sum
            / ((applyRules e).length : ℚ))
        ∧ calculateOverallConfidence (applyRules e) (some (detect t e))
            ≤ 0.54)
    ∧ ((applyRules e).length = 0 → (detect t e).isDarkPattern = true →
        calculateOverallConfidence (applyRules e) (some (detect t e)) =
          (0.4 : ℚ) * (detect t e).confidence
        ∧ calculateOverallConfidence (applyRules e) (some (detect t e))
            ≤ 0.4) := by
  have hkey := calculateOverallConfidence_some_eq (applyRules e) (detect t e)
  have haconf := detect_confidence t e
  have hacases := makePredictions_confidence_cases (extractFeatures e)
  set rm := applyRules e with hrm
  set c := (detect t e).confidence with hc
  set b := (detect t e).isDarkPattern with hb
  clear_value rm c b
  have hmean : 0 < rm.length →
      (rm.map (fun r => r.confidence)).sum / (rm.length : ℚ) = 0.9 := by
    intro hlen
    rw [hrm] at hlen ⊢
    exact applyRules_mean e hlen
  have ha0 : 0 ≤ c ∧ c ≤ 0.9 := by
    rcases hacases with ⟨_, h0⟩ | ⟨_, h1, h2⟩
    · rw [haconf, h0]
      norm_num
    · rw [haconf]
      exact ⟨le_trans (by norm_num) h1, h2⟩
  have hform : calculateOverallConfidence rm (some (detect t e)) =
      (if 0 < rm.length then
        (0.6 : ℚ) * ((rm.map (fun r => r.confidence)).sum / (rm.length : ℚ))
       else 0)
      + (if b then (0.4 : ℚ) * c else 0) := by
    rw [hkey]
    have e1 : (if 0 < rm.length then
        (rm.map (fun r => r.confidence)).sum / (rm.length : ℚ) * 0.6
       else 0)
        = (if 0 < rm.length then
          (0.6 : ℚ) * ((rm.map (fun r => r.confidence)).sum / (rm.length : ℚ))
         else 0) := by
      split <;> ring
    have e2 : (if b then c * 0.4 else 0) = (if b then (0.4 : ℚ) * c else 0) := by
      split <;> ring
    rw [e1, e2]
  refine ⟨hform, ?_, ?_, ?_, ?_⟩
  · rw [hform]
    by_cases hlen : 0 < rm.length
    · rw [if_pos hlen, hmean hlen]
      split <;> nlinarith [ha0.1, ha0.2]
    · rw [if_neg hlen]
      split <;> nlinarith [ha0.1, ha0.2]
  · rw [hform]
    by_cases hlen : 0 < rm.length
    · rw [if_pos hlen, hmean hlen]
      split <;> nlinarith [ha0.1, ha0.2]
    · rw [if_neg hlen]
      split <;> nlinarith [ha0.1, ha0.2]
  · intro hlen hd
    rw [hform, if_pos hlen, hd]
    rw [hmean hlen]
    refine ⟨by norm_num, by norm_num⟩
  · intro hlen hd
    rw [hform, hd]
    rw [if_neg (by rw [hlen]; exact lt_irrefl 0)]
    have hsimp : (0 : ℚ) + (if true = true then 0.4 * c else 0) = 0.4 * c := by
      simp
    rw [hsimp]
    refine ⟨rfl, ?_⟩
    nlinarith [ha0.1, ha0.2]

/-! ### Claim C2 -/

theorem analyzeElement_unfold (cfg : Config) (t : ℚ) (e : Element) :
    analyzeElement cfg t e =
      if (if cfg.enableRuleBased then applyRules e else []).length > 0
          || aiPositive (if cfg.enableAIBased then some (detect t e) else none)
      then
        .found
          { ruleMatches := if cfg.enableRuleBased then applyRules e else []
            aiDetection := if cfg.enableAIBased then some (detect t e) else none
            confidence := calculateOverallConfidence
              (if cfg.enableRuleBased then applyRules e else [])
              (if cfg.enableAIBased then some (detect t e) else none)
            severity := determineSeverity
              (if cfg.enableRuleBased then applyRules e else [])
              (if cfg.enableAIBased then some (detect t e) else none)
            recommendations := generateRecommendations
              (if cfg.enableRuleBased then applyRules e else [])
              (if cfg.enableAIBased then some (detect t e) else none) }
      else .notDetected := rfl

theorem aiPositive_iff (ar : Option AIResult) :
    aiPositive ar = true ↔ ∃ a, ar = some a ∧ a.isDarkPattern = true := by
  cases ar with
  | none => simp [aiPositive]
  | some a =>
      simp only [aiPositive]
      constructor
      · intro hd
        exact ⟨a, rfl, hd⟩
      · rintro ⟨a2, ha2, hd⟩
        cases Option.some.inj ha2
        exact hd

/-- C2: the `detected` flag of the result is `true` exactly when the rule-match
list is non-empty or the heuristic verdict is positive, and a positive
result carries exactly that rule-match list and heuristic verdict. -/
theorem detected_iff_spec (cfg : Config) (t : ℚ) (e : Element) :
    ((analyzeElement cfg t e).detected = true ↔
      (if cfg.enableRuleBased then applyRules e else []) ≠ []
      ∨ ∃ a, (if cfg.enableAIBased then some (detect t e) else none) = some a
          ∧ a.isDarkPattern = true)
    ∧ (analyzeElement cfg t e = .notDetected
      ∨ ∃ d, analyzeElement cfg t e = .found d
          ∧ d.ruleMatches = (if cfg.enableRuleBased then applyRules e else [])
          ∧ d.aiDetection
              = (if cfg.enableAIBased then some (detect t e) else none)) := by
  rw [analyzeElement_unfold]
  set rr := if cfg.enableRuleBased then applyRules e else [] with hrr
  set ar := if cfg.enableAIBased then some (detect t e) else none with har
  clear_value rr ar
  have hiff : (decide (rr.length > 0) || aiPositive ar) = true ↔
      rr ≠ [] ∨ ∃ a, ar = some a ∧ a.isDarkPattern = true := by
    rw [Bool.or_eq_true, decide_eq_true_iff, aiPositive_iff]
    constructor
    · rintro (hlen | hm)
      · exact Or.inl (List.length_pos.mp hlen)
      · exact Or.inr hm
    · rintro (hne | hm)
      · exact Or.inl (List.length_pos.mpr hne)
      · exact Or.inr hm
  by_cases hflag : (decide (rr.length > 0) || aiPositive ar) = true
  · rw [if_pos hflag]
    refine ⟨?_, Or.inr ⟨_, rfl, rfl, rfl⟩⟩
    simp only [AnalysisResult.detected]
    exact iff_of_true trivial (hiff.mp hflag)
  · rw [if_neg hflag]
    refine ⟨?_, Or.inl rfl⟩
    simp only [AnalysisResult.detected]
    exact iff_of_false Bool.false_ne_true
      (fun hcase => hflag (hiff.mpr hcase))

/-! ### Claim C8 -/

/-- C8: analysing the same unchanged element twice, with unchanged engine
state (configuration, rules, threshold), yields identical `detected`,
`severity` and `confidence`, and the analysis leaves the engine state
untouched (the source method assigns no instance field). -/
theorem analyze_idempotent_spec (s : EngineState) (e : Element) :
    (((analyzeElementRun s e).1).detected
        = ((analyzeElementRun (analyzeElementRun s e).2 e).1).detected)
    ∧ (((analyzeElementRun s e).1).severityStr
        = ((analyzeElementRun (analyzeElementRun s e).2 e).1).severityStr)
    ∧ (((analyzeElementRun s e).1).confidenceVal
        = ((analyzeElementRun (analyzeElementRun s e).2 e).1).confidenceVal)
    ∧ (analyzeElementRun s e).2 = s :=
  ⟨rfl, rfl, rfl, rfl⟩

/-! ### Claim C10 -/

/-- C10: `setConfig` merges the partial configuration into the existing one
(every key present overrides, every absent key keeps its prior value) and
changes no other engine state: rules, detection results and the suspicion
threshold are untouched. -/
theorem setConfig_spec (s : EngineState) (p : PartialConfig) :
    ((setConfig s p).config.enableRuleBased
        = p.enableRuleBased.getD s.config.enableRuleBased)
    ∧ ((setConfig s p).config.enableAIBased
        = p.enableAIBased.getD s.config.enableAIBased)
    ∧ ((setConfig s p).config.minConfidence
        = p.minConfidence.getD s.config.minConfidence)
    ∧ ((setConfig s p).config.scanDepth
        = p.scanDepth.getD s.config.scanDepth)
    ∧ ((setConfig s p).config.excludeSelectors
        = p.excludeSelectors.getD s.config.excludeSelectors)
    ∧ (p.enableRuleBased = none →
        (setConfig s p).config.enableRuleBased = s.config.enableRuleBased)
    ∧ (p.enableAIBased = none →
        (setConfig s p).config.enableAIBased = s.config.enableAIBased)
    ∧ (p.minConfidence = none →
        (setConfig s p).config.minConfidence = s.config.minConfidence)
    ∧ (p.scanDepth = none →
        (setConfig s p).config.scanDepth = s.config.scanDepth)
    ∧ (p.excludeSelectors = none →
        (setConfig s p).config.excludeSelectors = s.config.excludeSelectors)
    ∧ (setConfig s p).rules = s.rules
    ∧ (setConfig s p).detectionResults = s.detectionResults
    ∧ (setConfig s p).suspicionThreshold = s.suspicionThreshold := by
  refine ⟨rfl, rfl, rfl, rfl, rfl, ?_, ?_, ?_, ?_, ?_, rfl, rfl, rfl⟩
  · intro h
    show p.enableRuleBased.getD s.config.enableRuleBased
      = s.config.enableRuleBased
    rw [h]
    rfl
  · intro h
    show p.enableAIBased.getD s.config.enableAIBased = s.config.enableAIBased
    rw [h]
    rfl
  · intro h
    show p.minConfidence.getD s.config.minConfidence = s.config.minConfidence
    rw [h]
    rfl
  · intro h
    show p.scanDepth.getD s.config.scanDepth = s.config.scanDepth
    rw [h]
    rfl
  · intro h
    show p.excludeSelectors.getD s.config.excludeSelectors
      = s.config.excludeSelectors
    rw [h]
    rfl

/-! ### Claim C7 -/

theorem applyRulesLog_warnings_cons (r : Rule) (rs : List Rule) (e : Element) :
    (applyRulesLog (r :: rs) e).2
      = ruleWarnings r e ++ (applyRulesLog rs e).2 := rfl

theorem applyRulesWith_append (rs1 rs2 : List Rule) (e : Element) :
    applyRulesWith (rs1 ++ rs2) e
      = applyRulesWith rs1 e ++ applyRulesWith rs2 e := by
  induction rs1 with
  | nil => rfl
  | cons r rs ih =>
    rw [List.cons_append, applyRulesWith_cons, applyRulesWith_cons, ih]
    split <;> simp

theorem applyRulesLog_warnings_append (rs1 rs2 : List Rule) (e : Element) :
    (applyRulesLog (rs1 ++ rs2) e).2
      = (applyRulesLog rs1 e).2 ++ (applyRulesLog rs2 e).2 := by
  induction rs1 with
  | nil => rfl
  | cons r rs ih =>
    rw [List.cons_append, applyRulesLog_warnings_cons,
      applyRulesLog_warnings_cons, ih, List.append_assoc]

/-- C7: a rule whose structural predicate throws is treated as a non-match
after a warning is logged; the remaining rules are still evaluated (the
match list is exactly the one without the throwing rule) and the per-element
analysis returns normally with the same result. -/
theorem predicateError_nonfatal_spec (rs1 rs2 : List Rule) (b : Rule)
    (cfg : Config) (t : ℚ) (e : Element) (msg : String)
    (hpat : ruleTextMatch b e = false)
    (hchk : ruleCheckResult b e = .error msg) :
    applyRulesWith (rs1 ++ b :: rs2) e = applyRulesWith (rs1 ++ rs2) e
    ∧ ("Error checking rule " ++ b.id) ∈ (applyRulesLog (rs1 ++ b :: rs2) e).2
    ∧ analyzeElementWith (rs1 ++ b :: rs2) cfg t e
        = analyzeElementWith (rs1 ++ rs2) cfg t e := by
  have hfire : ruleFires b e = false := by
    unfold ruleFires
    rw [hpat, hchk]
    rfl
  have hwarn : ruleWarnings b e = ["Error checking rule " ++ b.id] := by
    unfold ruleWarnings
    rw [hchk, if_neg (by rw [hpat]; exact Bool.false_ne_true)]
  have hmatches : applyRulesWith (rs1 ++ b :: rs2) e
      = applyRulesWith (rs1 ++ rs2) e := by
    rw [applyRulesWith_append, applyRulesWith_append, applyRulesWith_cons,
      hfire]
    simp
  refine ⟨hmatches, ?_, ?_⟩
  · rw [applyRulesLog_warnings_append, applyRulesLog_warnings_cons, hwarn]
    simp
  · simp only [analyzeElementWith, hmatches]

/-! ### Claim C4 -/

theorem contains_severity_iff (e : Element) (sev : String) :
    ((applyRules e).map (fun r => r.severity)).contains sev = true ↔
      ∃ m ∈ applyRules e, m.severity = sev := by
  rw [List.elem_iff, List.mem_map]

/-- C4: if any rule match has severity "high" the overall severity is
"high" regardless of the heuristic verdict; otherwise the highest rule-match
severity (high > medium > low) wins; with no rule match, the severity comes
from the heuristic confidence thresholds (`> 0.8` high, `> 0.6` medium,
else low). -/
theorem severity_spec (e : Element) (ai : Option AIResult) (a : AIResult) :
    ((∃ m ∈ applyRules e, m.severity = "high") →
        determineSeverity (applyRules e) ai = "high")
    ∧ (applyRules e ≠ [] → (∀ m ∈ applyRules e, m.severity ≠ "high") →
        (∃ m ∈ applyRules e, m.severity = "medium") →
        determineSeverity (applyRules e) ai = "medium")
    ∧ (applyRules e ≠ [] →
        (∀ m ∈ applyRules e, m.severity ≠ "high" ∧ m.severity ≠ "medium") →
        determineSeverity (applyRules e) ai = "low")
    ∧ (a.isDarkPattern = true →
        determineSeverity [] (some a) =
          (if a.confidence > 0.8 then "high"
           else if a.confidence > 0.6 then "medium"
           else "low")) := by
  have h8 : mkRat 8 10 = (0.8 : ℚ) := by norm_num [mkRat_eq_div]
  have h6 : mkRat 6 10 = (0.6 : ℚ) := by norm_num [mkRat_eq_div]
  refine ⟨?_, ?_, ?_, ?_⟩
  · intro hex
    have h1 : ((applyRules e).map (fun r => r.severity)).contains "high"
        = true := (contains_severity_iff e "high").mpr hex
    simp only [determineSeverity]
    rw [if_pos h1]
  · intro hne hforall hex
    have h1 : ¬ (((applyRules e).map (fun r => r.severity)).contains "high"
        = true) := by
      intro hcontains
      obtain ⟨m, hm, hsev⟩ := (contains_severity_iff e "high").mp hcontains
      exact hforall m hm hsev
    have h2 : ((applyRules e).map (fun r => r.severity)).contains "medium"
        = true := (contains_severity_iff e "medium").mpr hex
    simp only [determineSeverity]
    rw [if_neg h1, if_pos h2]
  · intro hne hforall
    have h1 : ¬ (((applyRules e).map (fun r => r.severity)).contains "high"
        = true) := by
      intro hcontains
      obtain ⟨m, hm, hsev⟩ := (contains_severity_iff e "high").mp hcontains
      exact (hforall m hm).1 hsev
    have h2 : ¬ (((applyRules e).map (fun r => r.severity)).contains "medium"
        = true) := by
      intro hcontains
      obtain ⟨m, hm, hsev⟩ := (contains_severity_iff e "medium").mp hcontains
      exact (hforall m hm).2 hsev
    obtain ⟨m, hm⟩ := List.exists_mem_of_ne_nil _ hne
    have h3 : ((applyRules e).map (fun r => r.severity)).contains "low"
        = true := by
      refine (contains_severity_iff e "low").mpr ⟨m, hm, ?_⟩
      rcases applyRules_severity hm with hs | hs | hs
      · exact absurd hs (hforall m hm).1
      · exact absurd hs (hforall m hm).2
      · exact hs
    simp only [determineSeverity]
    rw [if_neg h1, if_neg h2, if_pos h3]
  · intro hd
    simp only [determineSeverity, List.map_nil]
    rw [hd]
    simp only [h8, h6]
    rfl

/-! ### Claim C6 -/

theorem bumpSeverity_high (acc : SeverityCounts) (sev : String) :
    (bumpSeverity acc sev).high
      = acc.high + (if sev = "high" then 1 else 0) := by
  unfold bumpSeverity
  split_ifs with h1 h2 h3 <;> simp [h1]

theorem bumpSeverity_medium (acc : SeverityCounts) (sev : String) :
    (bumpSeverity acc sev).medium
      = acc.medium + (if sev = "medium" then 1 else 0) := by
  unfold bumpSeverity
  split_ifs with h1 h2 h3 <;> simp_all

theorem bumpSeverity_low (acc : SeverityCounts) (sev : String) :
    (bumpSeverity acc sev).low
      = acc.low + (if sev = "low" then 1 else 0) := by
  unfold bumpSeverity
  split_ifs with h1 h2 h3 <;> simp_all

theorem foldl_bumpSeverity (results : List Detection) :
    ∀ acc : SeverityCounts,
    ((results.foldl (fun acc r => bumpSeverity acc r.severity) acc).high
        = acc.high
          + (results.filter (fun r => r.severity == "high")).length)
    ∧ ((results.foldl (fun acc r => bumpSeverity acc r.severity) acc).medium
        = acc.medium
          + (results.filter (fun r => r.severity == "medium")).length)
    ∧ ((results.foldl (fun acc r => bumpSeverity acc r.severity) acc).low
        = acc.low
          + (results.filter (fun r => r.severity == "low")).length) := by
  induction results with
  | nil => intro acc; simp
  | cons r rs ih =>
    intro acc
    have h := ih (bumpSeverity acc r.severity)
    simp only [List.foldl_cons, List.filter_cons]
    refine ⟨?_, ?_, ?_⟩
    · rw [h.1, bumpSeverity_high]
      by_cases hr : r.severity = "high" <;> simp [hr] <;> omega
    · rw [h.2.1, bumpSeverity_medium]
      by_cases hr : r.severity = "medium" <;> simp [hr] <;> omega
    · rw [h.2.2, bumpSeverity_low]
      by_cases hr : r.severity = "low" <;> simp [hr] <;> omega

theorem filter_three_sum (results : List Detection)
    (h : ∀ r ∈ results, r.severity = "high" ∨ r.severity = "medium"
        ∨ r.severity = "low") :
    (results.filter (fun r => r.severity == "high")).length
      + (results.filter (fun r => r.severity == "medium")).length
      + (results.filter (fun r => r.severity == "low")).length
      = results.length := by
  induction results with
  | nil => simp
  | cons r rs ih =>
    have hr := h r (List.mem_cons_self r rs)
    have hrs := ih (fun x hx => h x (List.mem_cons_of_mem _ hx))
    simp only [List.filter_cons, List.length_cons]
    rcases hr with hr | hr | hr <;> simp [hr] <;> omega

theorem generateSummary_bySeverity (results : List Detection) :
    (generateSummary results).bySeverity
      = results.foldl (fun acc r => bumpSeverity acc r.severity) ⟨0, 0, 0⟩ := by
  simp only [generateSummary]

theorem generateSummary_byCategory (results : List Detection) :
    (generateSummary results).byCategory = byCategoryOf results := by
  simp only [generateSummary]

theorem generateSummary_topIssues (results : List Detection) :
    (generateSummary results).topIssues
      = ((sortDescByCount (byCategoryOf results)).take 5).map (fun p =>
          { category := p.1
            count := p.2
            categoryName := ((darkPatternCategories.lookup p.1).getD p.1) }) := by
  simp only [generateSummary]

theorem byCategoryOf_heuristicOnly (pre post : List Detection) (r : Detection)
    (hr : r.ruleMatches = []) :
    byCategoryOf (pre ++ r :: post) = byCategoryOf (pre ++ post) := by
  unfold byCategoryOf
  simp only [List.foldl_append, List.foldl_cons, hr, List.foldl_nil]

theorem mem_insertDescByCount (x y : String × ℕ) (l : List (String × ℕ)) :
    y ∈ insertDescByCount x l ↔ y = x ∨ y ∈ l := by
  induction l with
  | nil => simp [insertDescByCount]
  | cons z zs ih =>
    simp only [insertDescByCount]
    split
    · simp only [List.mem_cons]
    · simp only [List.mem_cons, ih]
      tauto

theorem insertDescByCount_pairwise (x : String × ℕ) (l : List (String × ℕ))
    (hl : l.Pairwise (fun a b => b.2 ≤ a.2)) :
    (insertDescByCount x l).Pairwise (fun a b => b.2 ≤ a.2) := by
  induction l with
  | nil => simp [insertDescByCount]
  | cons z zs ih =>
    rcases List.pairwise_cons.mp hl with ⟨hz, hzs⟩
    simp only [insertDescByCount]
    split
    · rename_i hgt
      refine List.pairwise_cons.mpr ⟨?_, hl⟩
      intro y hy
      rcases List.mem_cons.mp hy with rfl | hy2
      · exact le_of_lt hgt
      · exact le_trans (hz y hy2) (le_of_lt hgt)
    · rename_i hle
      refine List.pairwise_cons.mpr ⟨?_, ih hzs⟩
      intro y hy
      rcases (mem_insertDescByCount x y zs).mp hy with rfl | hy2
      · exact le_of_not_lt hle
      · exact hz y hy2

theorem sortDescByCount_pairwise (l : List (String × ℕ)) :
    (sortDescByCount l).Pairwise (fun a b => b.2 ≤ a.2) := by
  unfold sortDescByCount
  have key : ∀ (xs : List (String × ℕ)) (acc : List (String × ℕ)),
      acc.Pairwise (fun a b => b.2 ≤ a.2) →
      (xs.foldl (fun acc x => insertDescByCount x acc) acc).Pairwise
        (fun a b => b.2 ≤ a.2) := by
    intro xs
    induction xs with
    | nil => intro acc hacc; exact hacc
    | cons x rest ih =>
        intro acc hacc
        exact ih _ (insertDescByCount_pairwise x acc hacc)
  exact key l [] (by simp)

/-- C6: every detection increments exactly one severity count (each counter
equals the number of detections with that severity, and the three counters
sum to the number of detections); category counts come only from rule
matches, so a heuristic-only detection changes no category count; the top
issues are the first five entries of the category counts in stable
descending count order, with display names resolved through the category
enum. -/
theorem summary_spec (results : List Detection)
    (h : ∀ r ∈ results, r.severity = "high" ∨ r.severity = "medium"
        ∨ r.severity = "low") :
    ((generateSummary results).bySeverity.high
        = (results.filter (fun r => r.severity == "high")).length)
    ∧ ((generateSummary results).bySeverity.medium
        = (results.filter (fun r => r.severity == "medium")).length)
    ∧ ((generateSummary results).bySeverity.low
        = (results.filter (fun r => r.severity == "low")).length)
    ∧ ((generateSummary results).bySeverity.high
        + (generateSummary results).bySeverity.medium
        + (generateSummary results).bySeverity.low = results.length)
    ∧ (∀ pre r post, results = pre ++ r :: post → r.ruleMatches = [] →
        (generateSummary results).byCategory
          = (generateSummary (pre ++ post)).byCategory)
    ∧ ((generateSummary results).topIssues
        = ((sortDescByCount (byCategoryOf results)).take 5).map (fun p =>
            { category := p.1
              count := p.2
              categoryName := ((darkPatternCategories.lookup p.1).getD p.1) }))
    ∧ (generateSummary results).topIssues.length ≤ 5
    ∧ ((generateSummary results).topIssues.map (fun ti => ti.count)).Pairwise
        (fun a b => b ≤ a)
    ∧ (∀ ti ∈ (generateSummary results).topIssues,
        ti.categoryName
          = (darkPatternCategories.lookup ti.category).getD ti.category) := by
  have hsev := foldl_bumpSeverity results (⟨0, 0, 0⟩ : SeverityCounts)
  have hhigh : (generateSummary results).bySeverity.high
      = (results.filter (fun r => r.severity == "high")).length := by
    rw [generateSummary_bySeverity, hsev.1]
    simp
  have hmed : (generateSummary results).bySeverity.medium
      = (results.filter (fun r => r.severity == "medium")).length := by
    rw [generateSummary_bySeverity, hsev.2.1]
    simp
  have hlow : (generateSummary results).bySeverity.low
      = (results.filter (fun r => r.severity == "low")).length := by
    rw [generateSummary_bySeverity, hsev.2.2]
    simp
  refine ⟨hhigh, hmed, hlow, ?_, ?_, generateSummary_topIssues results,
    ?_, ?_, ?_⟩
  · rw [hhigh, hmed, hlow]
    exact filter_three_sum results h
  · intro pre r post hsplit hr
    rw [generateSummary_byCategory, generateSummary_byCategory, hsplit]
    exact byCategoryOf_heuristicOnly pre post r hr
  · rw [generateSummary_topIssues]
    calc (((sortDescByCount (byCategoryOf results)).take 5).map _).length
        = ((sortDescByCount (byCategoryOf results)).take 5).length :=
          List.length_map _ _
      _ ≤ 5 := List.length_take_le 5 _
  · rw [generateSummary_topIssues]
    rw [List.map_map]
    refine List.pairwise_map.mpr ?_
    refine List.Pairwise.sublist (List.take_sublist 5 _) ?_
    exact sortDescByCount_pairwise (byCategoryOf results)
  · intro ti hti
    rw [generateSummary_topIssues] at hti
    obtain ⟨p, hp, rfl⟩ := List.mem_map.mp hti
    rfl

/-! ### Claim C3 -/

/-- C3 (counterexample): the element of the confirmshaming scenario of the spec —
text "No thanks, I hate saving money", tag `BUTTON` — is NOT matched by the
`confirmshaming` rule: its patterns require `i\s+hate\s+(money|savings|deals)`
and its structural check requires the no-i-dont/hate/prefer shaming prefix, neither
of which matches this text; the element produces no detection at all. -/
theorem confirmshaming_scenario_counterexample :
    buttonHateSaving.textContent = "No thanks, I hate saving money"
    ∧ buttonHateSaving.tagName = "BUTTON"
    ∧ ((applyRules buttonHateSaving).any
        (fun m => m.ruleId == "confirmshaming")) = false
    ∧ analyzeElement defaultConfig defaultThreshold buttonHateSaving
        = .notDetected := by
  refine ⟨rfl, rfl, by decide, by decide⟩

/-- C3 (amended): a `BUTTON` with text "No thanks, I hate money" (which the
confirmshaming pattern `i\s+hate\s+(money|savings|deals)` does match) is
matched by the `confirmshaming` rule, and its analysis yields severity at
least "medium" and a recommendation list containing "Use neutral language
for decline options". -/
theorem confirmshaming_scenario_amended :
    buttonHateMoney.textContent = "No thanks, I hate money"
    ∧ buttonHateMoney.tagName = "BUTTON"
    ∧ ((applyRules buttonHateMoney).any
        (fun m => m.ruleId == "confirmshaming")) = true
    ∧ sevRank
        (analyzeElement defaultConfig defaultThreshold
          buttonHateMoney).severityStr ≥ sevRank "medium"
    ∧ "Use neutral language for decline options"
        ∈ (analyzeElement defaultConfig defaultThreshold
            buttonHateMoney).recommendationList := by
  refine ⟨rfl, rfl, by decide, by decide, by decide⟩

/-! ### Witnesses -/

theorem fusedConfidence_spec_witness :
    calculateOverallConfidence (applyRules buttonHateMoney)
        (some (detect defaultThreshold buttonHateMoney)) ≤ 0.54
    ∧ calculateOverallConfidence (applyRules dimLink)
        (some (detect defaultThreshold dimLink))
        = (0.4 : ℚ) * (detect defaultThreshold dimLink).confidence := by
  constructor
  · exact ((fusedConfidence_spec buttonHateMoney defaultThreshold).2.2.2.1
      (by decide) (by decide)).2
  · exact ((fusedConfidence_spec dimLink defaultThreshold).2.2.2.2
      (by decide) (by decide)).1

theorem severity_spec_witness :
    determineSeverity (applyRules hurryElement)
        (some (detect defaultThreshold hurryElement)) = "high"
    ∧ determineSeverity (applyRules buttonHateMoney)
        (some (detect defaultThreshold buttonHateMoney)) = "medium"
    ∧ determineSeverity (applyRules skipButton)
        (some (detect defaultThreshold skipButton)) = "low"
    ∧ determineSeverity [] (some (detect defaultThreshold dimLink))
        = "high" := by
  refine ⟨?_, ?_, ?_, ?_⟩
  · exact (severity_spec hurryElement
      (some (detect defaultThreshold hurryElement))
      (detect defaultThreshold hurryElement)).1 (by decide)
  · exact (severity_spec buttonHateMoney
      (some (detect defaultThreshold buttonHateMoney))
      (detect defaultThreshold buttonHateMoney)).2.1
      (by decide) (by decide) (by decide)
  · exact (severity_spec skipButton
      (some (detect defaultThreshold skipButton))
      (detect defaultThreshold skipButton)).2.2.1 (by decide) (by decide)
  · have h := (severity_spec dimLink (some (detect defaultThreshold dimLink))
      (detect defaultThreshold dimLink)).2.2.2 (by decide)
    rw [h]
    have hc : (detect defaultThreshold dimLink).confidence = mkRat 85 100 := by
      decide
    rw [hc,
      if_pos (by norm_num [mkRat_eq_div] : (mkRat 85 100 : ℚ) > 0.8)]

theorem summary_spec_witness :
    (generateSummary
        [sampleRuleDetection, sampleHeuristicDetection]).bySeverity.medium = 2
    ∧ (generateSummary
          [sampleRuleDetection, sampleHeuristicDetection]).byCategory
        = (generateSummary [sampleRuleDetection]).byCategory := by
  have H := summary_spec [sampleRuleDetection, sampleHeuristicDetection]
    (by decide)
  constructor
  · rw [H.2.1]
    decide
  · have h2 := H.2.2.2.2.1 [sampleRuleDetection] sampleHeuristicDetection []
      rfl rfl
    simpa using h2

theorem predicateError_nonfatal_spec_witness :
    applyRulesWith ([] ++ throwingRule :: darkPatternRulesList) plainElement
        = applyRulesWith ([] ++ darkPatternRulesList) plainElement
    ∧ ("Error checking rule " ++ throwingRule.id)
        ∈ (applyRulesLog ([] ++ throwingRule :: darkPatternRulesList)
            plainElement).2 := by
  have H := predicateError_nonfatal_spec [] darkPatternRulesList throwingRule
    defaultConfig defaultThreshold plainElement "boom" rfl rfl
  exact ⟨H.1, H.2.1⟩

theorem heuristicThreshold_spec_witness :
    triggeredScores (extractFeatures dimLink) ≠ []
    ∧ (detect defaultThreshold dimLink).isDarkPattern = true
    ∧ (0.6 : ℚ) ≤ (makePredictions (extractFeatures dimLink)).confidence := by
  have H := heuristicThreshold_spec dimLink
  have hne : triggeredScores (extractFeatures dimLink) ≠ [] := by decide
  exact ⟨hne, H.2.2.1 hne, H.2.2.2 (by decide)⟩

theorem setConfig_spec_witness :
    ((setConfig initialEngineState emptyPartialConfig).config.enableRuleBased
        = initialEngineState.config.enableRuleBased)
    ∧ ((setConfig initialEngineState emptyPartialConfig).config.enableAIBased
        = initialEngineState.config.enableAIBased)
    ∧ ((setConfig initialEngineState emptyPartialConfig).config.minConfidence
        = initialEngineState.config.minConfidence)
    ∧ ((setConfig initialEngineState emptyPartialConfig).config.scanDepth
        = initialEngineState.config.scanDepth)
    ∧ ((setConfig initialEngineState
          emptyPartialConfig).config.excludeSelectors
        = initialEngineState.config.excludeSelectors) := by
  have H := setConfig_spec initialEngineState emptyPartialConfig
  exact ⟨H.2.2.2.2.2.1 rfl, H.2.2.2.2.2.2.1 rfl, H.2.2.2.2.2.2.2.1 rfl,
    H.2.2.2.2.2.2.2.2.1 rfl, H.2.2.2.2.2.2.2.2.2.1 rfl⟩

end DarkPattern
